import Mathlib

/-!
Shallow embedding of the producer side of the BufferHub queue
(libs/vr/libbufferhubqueue/buffer_hub_queue_producer.cpp) together with the
parts of its collaborators that the producer observes.  The producer code is
translated directly from the source; the buffer broker (the BufferHubQueue
client) and the slot state object live outside the given source and are
modelled from the specification, as marked on each definition.
-/

namespace BufferHub

/-- Android status code NO_ERROR. -/
def NO_ERROR : Int := 0

/-- Android status code NO_MEMORY, returned when the broker yields no buffer. -/
def NO_MEMORY : Int := -12

/-- Android status code NO_INIT, returned when no producer API is connected. -/
def NO_INIT : Int := -19

/-- Android status code BAD_VALUE, the InvalidArgument error of the spec. -/
def BAD_VALUE : Int := -22

/-- Android status code INVALID_OPERATION. -/
def INVALID_OPERATION : Int := -38

/-- IGraphicBufferProducer flag BUFFER_NEEDS_REALLOCATION, bit 0 of a
successful dequeueBuffer return value. -/
def BUFFER_NEEDS_REALLOCATION : Int := 1

/-- BufferHubQueueCore.kNoConnectedApi sentinel. -/
def kNoConnectedApi : Int := -1

/-- Modelled from the spec: the hard queue-capacity constant
BufferHubQueue.kMaxQueueCapacity, the fixed size of the slot table
(NUM_BUFFER_SLOTS in the platform headers, which are outside the given
source). -/
def kMaxQueueCapacity : Nat := 64

/-- Window API identifiers accepted by connect. -/
def NATIVE_WINDOW_API_EGL : Int := 1

/-- CPU window API identifier. -/
def NATIVE_WINDOW_API_CPU : Int := 2

/-- Media window API identifier. -/
def NATIVE_WINDOW_API_MEDIA : Int := 3

/-- Camera window API identifier. -/
def NATIVE_WINDOW_API_CAMERA : Int := 4

/-- Modelled from the spec: the closed slot-state variant.  The source stores
this in the platform BufferState object (outside the given source); the spec
directs that it be modelled as a closed tagged variant Free, Dequeued, Queued
with explicit transition functions. -/
inductive BufferState where
  | free
  | dequeued
  | queued
deriving DecidableEq

/-- BufferState.isDequeued of the platform slot-state object. -/
def BufferState.isDequeued : BufferState → Bool
  | .dequeued => true
  | _ => false

/-- BufferState.isFree of the platform slot-state object. -/
def BufferState.isFree : BufferState → Bool
  | .free => true
  | _ => false

/-- BufferState.isQueued of the platform slot-state object. -/
def BufferState.isQueued : BufferState → Bool
  | .queued => true
  | _ => false

/-- Modelled from the spec: the freeQueued transition moves a Queued slot back
to Free and leaves the state unchanged otherwise. -/
def BufferState.freeQueued : BufferState → BufferState
  | .queued => .free
  | s => s

/-- Modelled from the spec: the dequeue transition moves a Free slot to
Dequeued and leaves the state unchanged otherwise. -/
def BufferState.dequeue : BufferState → BufferState
  | .free => .dequeued
  | s => s

/-- Modelled from the spec: the queue transition moves a Dequeued slot to
Queued and leaves the state unchanged otherwise. -/
def BufferState.queue : BufferState → BufferState
  | .dequeued => .queued
  | s => s

/-- Modelled from the spec: the cancel transition returns a Dequeued slot to
Free and leaves the state unchanged otherwise. -/
def BufferState.cancel : BufferState → BufferState
  | .dequeued => .free
  | s => s

/-- The broker-side buffer object (BufferProducer client) as the producer
observes it: geometry, format, usage and stride metadata. -/
structure BufferProducer where
  width : Int
  height : Int
  format : Int
  usage : Int
  stride : Int
deriving DecidableEq

/-- The platform GraphicBuffer wrapper, carrying only the metadata the
producer copies into it from the broker buffer. -/
structure GraphicBuffer where
  width : Int
  height : Int
  format : Int
  usage : Int
  stride : Int
deriving DecidableEq

/-- An opaque fence token; only validity is observable at this layer. -/
structure Fence where
  valid : Bool
deriving DecidableEq

/-- Fence.NO_FENCE, the no-op fence returned by every successful dequeue. -/
def noFence : Fence := ⟨false⟩

/-- One entry of the BufferHubQueueCore slot table. -/
structure BufferHubSlot where
  mBufferState : BufferState
  mGraphicBuffer : Option GraphicBuffer
  mRequestBufferCalled : Bool
  mBufferProducer : Option BufferProducer
  mIsReallocating : Bool
  mFence : Option Fence
deriving DecidableEq

/-- A slot as constructed: Free, with no buffer, wrapper, or flags. -/
def initialSlot : BufferHubSlot :=
  { mBufferState := .free
    mGraphicBuffer := none
    mRequestBufferCalled := false
    mBufferProducer := none
    mIsReallocating := false
    mFence := none }

/-- The producer together with its core and the broker state it observes.
buffers_ is the core slot table; pool is the broker's FIFO of available slot
indices (modelled from the spec: the broker's blocking dequeue primitive
returns available buffers in its own order, independent of allocation order);
allocBudget bounds how many further broker allocations succeed, letting
allocation failure be expressed. -/
structure Producer where
  buffers_ : List BufferHubSlot
  connected_api_ : Int
  max_dequeued_buffer_count_ : Int
  max_buffer_count_ : Int
  pool : List Nat
  allocBudget : Nat
deriving DecidableEq

/-- Read slot i of the table, with the freshly constructed slot as the
out-of-range default. -/
def slotAt (p : Producer) (i : Nat) : BufferHubSlot :=
  p.buffers_.getD i initialSlot

/-- Replace slot i of the table by applying f to it. -/
def setSlot (p : Producer) (i : Nat) (f : BufferHubSlot → BufferHubSlot) :
    Producer :=
  { p with buffers_ := p.buffers_.set i (f (slotAt p i)) }

/-- The number of slots currently holding a broker buffer; this is the
broker capacity the lazy-allocation check compares against. -/
def capacity (p : Producer) : Nat :=
  p.buffers_.countP fun b => b.mBufferProducer.isSome

/-- The number of slots currently in the Dequeued state, as counted by
setMaxDequeuedBufferCount. -/
def dequeuedCount (p : Producer) : Nat :=
  p.buffers_.countP fun b => b.mBufferState.isDequeued

/-- Modelled from the spec: the broker's lowest free slot index, used by
allocation; none when every slot of the fixed table holds a buffer. -/
def lowestFree (p : Producer) : Option Nat :=
  (List.range kMaxQueueCapacity).find? fun s =>
    (slotAt p s).mBufferProducer.isNone

/-- Modelled from the spec: BufferHubQueueCore.AllocateBuffer.  Allocates one
buffer of the requested geometry through the broker: it fails when the
allocation budget is exhausted or the table is full, and otherwise places the
new buffer in the lowest free slot and appends that slot to the broker's
available pool. -/
def allocateBuffer (p : Producer) (w h fmt usage : Int) :
    Except Int Producer :=
  if p.allocBudget = 0 then .error NO_MEMORY
  else
    match lowestFree p with
    | none => .error NO_MEMORY
    | some s =>
        .ok { setSlot p s (fun b => { b with
                  mBufferProducer := some ⟨w, h, fmt, usage, w⟩ }) with
              pool := p.pool ++ [s]
              allocBudget := p.allocBudget - 1 }

/-- Modelled from the spec: BufferHubQueueCore.DetachBuffer.  Releases the
slot's buffer back to the broker ahead of reallocation: the buffer handle and
the derived fields (presentation wrapper, request flag) are cleared and the
slot leaves the broker's available pool. -/
def detachBuffer (p : Producer) (s : Nat) : Producer :=
  { setSlot p s (fun b => { b with
        mBufferProducer := none
        mGraphicBuffer := none
        mRequestBufferCalled := false }) with
    pool := (p.pool).filter (fun t => t ≠ s) }

/-- Modelled from the spec: the broker's blocking dequeue primitive.  Pops
the head of the available pool and returns the slot together with its buffer;
returns none (surfaced as NO_MEMORY by the caller) when nothing is available
before the timeout. -/
def brokerDequeue (p : Producer) : Option (Nat × BufferProducer × Producer) :=
  match p.pool with
  | [] => none
  | s :: rest =>
      match (slotAt p s).mBufferProducer with
      | none => none
      | some bp => some (s, bp, { p with pool := rest })

/-- Modelled from the spec: the broker's enqueue primitive, returning a
buffer to the free pool tagged with its slot. -/
def brokerEnqueue (p : Producer) (s : Nat) : Producer :=
  { p with pool := p.pool ++ [s] }

/-- BufferHubQueueProducer.requestBuffer.  Validates connection, range, slot
state, absence of a cached wrapper and presence of a broker buffer, then
builds the GraphicBuffer wrapper from the broker buffer's metadata, caches it
and marks the slot requested. -/
def requestBuffer (p : Producer) (slot : Int) :
    Int × Option GraphicBuffer × Producer :=
  if p.connected_api_ = kNoConnectedApi then (NO_INIT, none, p)
  else if slot < 0 ∨ p.max_buffer_count_ ≤ slot then (BAD_VALUE, none, p)
  else if (slotAt p slot.toNat).mBufferState.isDequeued = false then
    (BAD_VALUE, none, p)
  else if (slotAt p slot.toNat).mGraphicBuffer ≠ none then (BAD_VALUE, none, p)
  else
    match (slotAt p slot.toNat).mBufferProducer with
    | none => (BAD_VALUE, none, p)
    | some bp =>
        let gb : GraphicBuffer := ⟨bp.width, bp.height, bp.format, bp.usage, bp.stride⟩
        (NO_ERROR, some gb,
          setSlot p slot.toNat fun b =>
            { b with mGraphicBuffer := some gb, mRequestBufferCalled := true })

/-- BufferHubQueueProducer.setMaxDequeuedBufferCount.  Rejects a count outside
the interval from 1 to kMaxQueueCapacity or below the number of currently
Dequeued slots; otherwise records the new bound. -/
def setMaxDequeuedBufferCount (p : Producer) (n : Int) : Int × Producer :=
  if n ≤ 0 ∨ (kMaxQueueCapacity : Int) < n then (BAD_VALUE, p)
  else if (dequeuedCount p : Int) > n then (BAD_VALUE, p)
  else (NO_ERROR, { p with max_dequeued_buffer_count_ := n })

/-- Outcome of the reallocation retry loop inside dequeueBuffer: an error
return, a geometry match that broke out of the loop, or fuel exhaustion
carrying the slot fetched last (none only when the loop never ran). -/
inductive LoopOut where
  | err (ret : Int)
  | matched (slot : Nat)
  | exhausted (last : Option Nat)
deriving DecidableEq

/-- The retry loop of BufferHubQueueProducer.dequeueBuffer.  Each iteration
fetches one buffer from the broker; a geometry match breaks out, a mismatch
marks the slot as reallocating, detaches it and allocates a replacement
before retrying.  The third component counts broker fetches performed. -/
def dequeueLoop (w h fmt usage : Int) :
    Nat → Producer → Option Nat → LoopOut × Producer × Nat
  | 0, p, last => (.exhausted last, p, 0)
  | fuel + 1, p, _ =>
      match brokerDequeue p with
      | none => (.err NO_MEMORY, p, 1)
      | some (s, bp, p1) =>
          if bp.width = w ∧ bp.height = h ∧ bp.format = fmt then
            (.matched s, p1, 1)
          else
            let p2 := setSlot p1 s fun b => { b with mIsReallocating := true }
            let p3 := detachBuffer p2 s
            match allocateBuffer p3 w h fmt usage with
            | .error e => (.err e, p3, 1)
            | .ok p4 =>
                let r := dequeueLoop w h fmt usage fuel p4 (some s)
                (r.1, r.2.1, r.2.2 + 1)

/-- Result of dequeueBuffer: fatal models LOG_ALWAYS_FATAL, err an error
status, ok carries the slot, the returned status word and the fence. -/
inductive DequeueResult where
  | fatal
  | err (ret : Int)
  | ok (slot : Nat) (ret : Int) (fence : Fence)
deriving DecidableEq

/-- The acceptance tail of dequeueBuffer: the fatal Free-or-Queued check, the
freeQueued and dequeue transitions, the NO_FENCE result, and consumption of
the reallocation marker.  The source initializes ret to NO_ERROR and ors in
BUFFER_NEEDS_REALLOCATION, so the returned status is exactly that flag when
the marker was set. -/
def acceptSlot (p : Producer) (s : Nat) (n : Nat) :
    DequeueResult × Producer × Nat :=
  if (slotAt p s).mBufferState.isFree = false ∧
      (slotAt p s).mBufferState.isQueued = false then
    (.fatal, p, n)
  else
    let p1 := setSlot p s fun b =>
      { b with mBufferState := b.mBufferState.freeQueued.dequeue }
    if (slotAt p1 s).mIsReallocating then
      (.ok s BUFFER_NEEDS_REALLOCATION noFence,
        setSlot p1 s (fun b => { b with mIsReallocating := false }), n)
    else
      (.ok s NO_ERROR noFence, p1, n)

/-- BufferHubQueueProducer.dequeueBuffer.  Checks connection, lazily grows the
broker capacity toward max_dequeued_buffer_count_, runs the retry loop up to
kMaxQueueCapacity times and accepts the resulting slot.  The third component
counts broker fetches. -/
def dequeueBuffer (p : Producer) (w h fmt usage : Int) :
    DequeueResult × Producer × Nat :=
  if p.connected_api_ = kNoConnectedApi then (.err NO_INIT, p, 0)
  else
    let pre : Except Int Producer :=
      if (capacity p : Int) < p.max_dequeued_buffer_count_ then
        allocateBuffer p w h fmt usage
      else .ok p
    match pre with
    | .error e => (.err e, p, 0)
    | .ok p1 =>
        match dequeueLoop w h fmt usage kMaxQueueCapacity p1 none with
        | (.err e, p2, n) => (.err e, p2, n)
        | (.matched s, p2, n) => acceptSlot p2 s n
        | (.exhausted none, p2, n) => (.fatal, p2, n)
        | (.exhausted (some s), p2, n) => acceptSlot p2 s n

/-- Android Rect, with the four signed edges. -/
structure Rect where
  left : Int
  top : Int
  right : Int
  bottom : Int
deriving DecidableEq

/-- Rect.intersect: the result rectangle is written componentwise from the
maxima of the near edges and the minima of the far edges. -/
def Rect.intersect (a b : Rect) : Rect :=
  ⟨max a.left b.left, max a.top b.top, min a.right b.right, min a.bottom b.bottom⟩

/-- Scaling mode FREEZE. -/
def NATIVE_WINDOW_SCALING_MODE_FREEZE : Int := 0

/-- Scaling mode SCALE_TO_WINDOW. -/
def NATIVE_WINDOW_SCALING_MODE_SCALE_TO_WINDOW : Int := 1

/-- Scaling mode SCALE_CROP. -/
def NATIVE_WINDOW_SCALING_MODE_SCALE_CROP : Int := 2

/-- Scaling mode NO_SCALE_CROP. -/
def NATIVE_WINDOW_SCALING_MODE_NO_SCALE_CROP : Int := 3

/-- The scaling-mode switch of queueBuffer: exactly the four recognized
modes pass. -/
def validScalingMode (m : Int) : Bool :=
  m = NATIVE_WINDOW_SCALING_MODE_FREEZE ∨
  m = NATIVE_WINDOW_SCALING_MODE_SCALE_TO_WINDOW ∨
  m = NATIVE_WINDOW_SCALING_MODE_SCALE_CROP ∨
  m = NATIVE_WINDOW_SCALING_MODE_NO_SCALE_CROP

/-- The fields deflated from an IGraphicBufferProducer QueueBufferInput. -/
structure QueueBufferInput where
  timestamp : Int
  isAutoTimestamp : Bool
  dataSpace : Int
  crop : Rect
  scalingMode : Int
  transform : Int
  fence : Option Fence
deriving DecidableEq

/-- The fields of an IGraphicBufferProducer QueueBufferOutput that this
producer fills. -/
structure QueueBufferOutput where
  width : Int
  height : Int
  transformHint : Int
  numPendingBuffers : Int
  nextFrameNumber : Int
deriving DecidableEq

/-- Result of queueBuffer: fatal models the null dereference of a missing
broker buffer, err an error status, ok the filled output record. -/
inductive QueueResult where
  | fatal
  | err (ret : Int)
  | ok (output : QueueBufferOutput)
deriving DecidableEq

/-- BufferHubQueueProducer.queueBuffer.  Validates the output pointer, the
scaling mode and the fence before taking the lock and checking connection,
range, slot state and the request precondition; rejects a crop whose
intersection with the buffer rectangle differs from the crop; then posts the
buffer (modelled from the spec: the consumer end acquires automatically, so
the posted buffer returns to the broker's available pool), queues the slot
and fills the output record. -/
def queueBuffer (p : Producer) (slot : Int) (input : QueueBufferInput)
    (outputIsNull : Bool) : QueueResult × Producer :=
  if outputIsNull then (.err BAD_VALUE, p)
  else if validScalingMode input.scalingMode = false then (.err BAD_VALUE, p)
  else if input.fence = none then (.err BAD_VALUE, p)
  else if p.connected_api_ = kNoConnectedApi then (.err NO_INIT, p)
  else if slot < 0 ∨ p.max_buffer_count_ ≤ slot then (.err BAD_VALUE, p)
  else if (slotAt p slot.toNat).mBufferState.isDequeued = false then
    (.err BAD_VALUE, p)
  else if (slotAt p slot.toNat).mRequestBufferCalled = false ∨
      (slotAt p slot.toNat).mGraphicBuffer = none then
    (.err BAD_VALUE, p)
  else
    match (slotAt p slot.toNat).mBufferProducer with
    | none => (.fatal, p)
    | some bp =>
        let buffer_rect : Rect := ⟨0, 0, bp.width, bp.height⟩
        let cropped_rect := input.crop.intersect buffer_rect
        if cropped_rect ≠ input.crop then (.err BAD_VALUE, p)
        else
          let p1 := brokerEnqueue p slot.toNat
          let p2 := setSlot p1 slot.toNat fun b =>
            { b with mBufferState := b.mBufferState.queue }
          (.ok { width := bp.width, height := bp.height, transformHint := 0,
                 numPendingBuffers := 0, nextFrameNumber := 0 }, p2)

/-- BufferHubQueueProducer.cancelBuffer.  Validates connection, range, slot
state and the fence, returns the buffer to the broker's free pool tagged with
the slot, applies the cancel transition and records the fence. -/
def cancelBuffer (p : Producer) (slot : Int) (fence : Option Fence) :
    Int × Producer :=
  if p.connected_api_ = kNoConnectedApi then (NO_INIT, p)
  else if slot < 0 ∨ p.max_buffer_count_ ≤ slot then (BAD_VALUE, p)
  else if (slotAt p slot.toNat).mBufferState.isDequeued = false then
    (BAD_VALUE, p)
  else
    match fence with
    | none => (BAD_VALUE, p)
    | some f =>
        let p1 := brokerEnqueue p slot.toNat
        let p2 := setSlot p1 slot.toNat fun b =>
          { b with mBufferState := b.mBufferState.cancel, mFence := some f }
        (NO_ERROR, p2)

/-- BufferHubQueueProducer.connect.  Validates the output pointer, requires
no API to be connected yet, and accepts exactly the EGL, CPU, MEDIA and
CAMERA identifiers. -/
def connect (p : Producer) (api : Int) (outputIsNull : Bool) : Int × Producer :=
  if outputIsNull then (BAD_VALUE, p)
  else if p.connected_api_ ≠ kNoConnectedApi then (BAD_VALUE, p)
  else if api = NATIVE_WINDOW_API_EGL ∨ api = NATIVE_WINDOW_API_CPU ∨
      api = NATIVE_WINDOW_API_MEDIA ∨ api = NATIVE_WINDOW_API_CAMERA then
    (NO_ERROR, { p with connected_api_ := api })
  else (BAD_VALUE, p)

/-- BufferHubQueueProducer.disconnect.  Rejects an API other than the one
connected; otherwise clears the connection. -/
def disconnect (p : Producer) (api : Int) : Int × Producer :=
  if api ≠ p.connected_api_ then (BAD_VALUE, p)
  else (NO_ERROR, { p with connected_api_ := kNoConnectedApi })

/-- A freshly constructed producer over an empty broker with the given
allocation budget: every slot Free and empty, nothing connected, the default
dequeue bound of one, and the full fixed table capacity. -/
def initProducer (budget : Nat) : Producer :=
  { buffers_ := List.replicate kMaxQueueCapacity initialSlot
    connected_api_ := kNoConnectedApi
    max_dequeued_buffer_count_ := 1
    max_buffer_count_ := kMaxQueueCapacity
    pool := []
    allocBudget := budget }

/-- The requested geometry triple agrees with a broker buffer, the equality
dequeueBuffer tests before accepting a fetched buffer. -/
def geomEq (bp : BufferProducer) (w h fmt : Int) : Prop :=
  bp.width = w ∧ bp.height = h ∧ bp.format = fmt

/-- A slot that dequeueBuffer may accept for the request: in range, holding a
broker buffer of the requested geometry, and not currently Dequeued. -/
def GoodSlot (w h fmt : Int) (p : Producer) (s : Nat) : Prop :=
  s < kMaxQueueCapacity ∧
  (∃ bp, (slotAt p s).mBufferProducer = some bp ∧ geomEq bp w h fmt) ∧
  (slotAt p s).mBufferState.isDequeued = false

/-- Consistency of the producer table with the broker: the table has its
fixed size, the broker's available pool lists distinct in-range slots that
hold buffers and are not Dequeued, and every Dequeued slot holds a buffer. -/
abbrev WF (p : Producer) : Prop :=
  p.buffers_.length = kMaxQueueCapacity ∧
  p.pool.Nodup ∧
  (∀ s ∈ p.pool, s < kMaxQueueCapacity ∧
    (slotAt p s).mBufferProducer.isSome ∧
    (slotAt p s).mBufferState.isDequeued = false) ∧
  (∀ s, s < kMaxQueueCapacity → (slotAt p s).mBufferState.isDequeued = true →
    (slotAt p s).mBufferProducer.isSome)

/-- A queue input with the given crop, FREEZE scaling and a valid fence, as
used by the concrete scenarios below. -/
def validInput (crop : Rect) : QueueBufferInput :=
  { timestamp := 0, isAutoTimestamp := false, dataSpace := 0, crop := crop,
    scalingMode := NATIVE_WINDOW_SCALING_MODE_FREEZE, transform := 0,
    fence := some ⟨true⟩ }

/-- A fresh producer connected for the CPU API with ample allocation budget. -/
def exConnected : Producer :=
  (connect (initProducer 10) NATIVE_WINDOW_API_CPU false).2

/-- State after one dequeue of a 64 by 64 format-1 buffer: slot 0 Dequeued. -/
def exDq1 : Producer := (dequeueBuffer exConnected 64 64 1 0).2.1

/-- State after additionally requesting slot 0: wrapper cached. -/
def exReq : Producer := (requestBuffer exDq1 0).2.2

/-- Cancelling slot 0 after request: the occupancy ends via cancel. -/
def exCancel : Int × Producer := cancelBuffer exReq 0 (some ⟨true⟩)

/-- Queueing slot 0 after request with a full-bounds crop. -/
def exQueued : Producer :=
  (queueBuffer exReq 0 (validInput ⟨0, 0, 64, 64⟩) false).2

/-- Re-dequeue of the queued buffer: the broker hands slot 0 back. -/
def exDq2 : DequeueResult × Producer × Nat := dequeueBuffer exQueued 64 64 1 0

/-- Claim 2 trace: bound raised to 2. -/
def c2a : Producer := (setMaxDequeuedBufferCount exConnected 2).2

/-- Claim 2 trace: first buffer dequeued (slot 0). -/
def c2b : Producer := (dequeueBuffer c2a 64 64 1 0).2.1

/-- Claim 2 trace: second buffer dequeued (slot 1). -/
def c2c : Producer := (dequeueBuffer c2b 64 64 1 0).2.1

/-- Claim 2 trace: slot 0 requested and queued back, so only slot 1 stays
Dequeued. -/
def c2d : Producer :=
  (queueBuffer (requestBuffer c2c 0).2.2 0 (validInput ⟨0, 0, 64, 64⟩) false).2

/-- Claim 2 trace: the bound is lowered to 1 while one slot is Dequeued. -/
def c2e : Int × Producer := setMaxDequeuedBufferCount c2d 1

/-- Claim 2 trace: a further dequeue raises the Dequeued count above the
bound now in force. -/
def c2f : DequeueResult × Producer × Nat := dequeueBuffer c2e.2 64 64 1 0

/-- Claim 7 scenario: the unrequested slot 0 is cancelled back to the pool. -/
def c7a : Producer := (cancelBuffer exDq1 0 (some ⟨true⟩)).2

/-- Claim 7 scenario: a 128 by 128 request forces reallocation of slot 0. -/
def c7b : DequeueResult × Producer × Nat := dequeueBuffer c7a 128 128 1 0

/-- Claim 7 scenario: slot 0 cancelled again after the reallocating dequeue. -/
def c7c : Producer := (cancelBuffer c7b.2.1 0 (some ⟨true⟩)).2

/-- Claim 7 scenario: the same geometry dequeued again, without a new
mismatch. -/
def c7d : DequeueResult × Producer × Nat := dequeueBuffer c7c 128 128 1 0

/-- Claim 10 state: allocation budget exhausted after the first dequeue, and
the mismatched 64 by 64 buffer back in the pool at slot 0. -/
def c10p : Producer :=
  (cancelBuffer (dequeueBuffer (connect (initProducer 1)
    NATIVE_WINDOW_API_CPU false).2 64 64 1 0).2.1 0 (some ⟨true⟩)).2

/-- The properties of one run of the retry loop that the dequeue claims
need: the fetch count is bounded by the fuel, the table keeps its size, an
error return is NO_MEMORY, and a matched or exhausted outcome designates a
slot that dequeueBuffer may accept for the request. -/
abbrev LoopConcl (w h fmt : Int) (fuel : Nat) (last : Option Nat)
    (r : LoopOut × Producer × Nat) : Prop :=
  r.2.2 ≤ fuel ∧
  r.2.1.buffers_.length = kMaxQueueCapacity ∧
  (∀ e, r.1 = LoopOut.err e → e = NO_MEMORY) ∧
  (∀ s, r.1 = LoopOut.matched s → GoodSlot w h fmt r.2.1 s) ∧
  (∀ l, r.1 = LoopOut.exhausted l →
    (l = none → fuel = 0 ∧ last = none) ∧
    (∀ s, l = some s → GoodSlot w h fmt r.2.1 s))

/-! Basic facts about the table accessors. -/

theorem pool_setSlot (p : Producer) (i : Nat) (f : BufferHubSlot → BufferHubSlot) :
    (setSlot p i f).pool = p.pool := rfl

theorem connected_setSlot (p : Producer) (i : Nat) (f : BufferHubSlot → BufferHubSlot) :
    (setSlot p i f).connected_api_ = p.connected_api_ := rfl

theorem budget_setSlot (p : Producer) (i : Nat) (f : BufferHubSlot → BufferHubSlot) :
    (setSlot p i f).allocBudget = p.allocBudget := rfl

theorem length_setSlot (p : Producer) (i : Nat) (f : BufferHubSlot → BufferHubSlot) :
    (setSlot p i f).buffers_.length = p.buffers_.length := by
  simp [setSlot]

theorem slotAt_setSlot (p : Producer) (i s : Nat) (f : BufferHubSlot → BufferHubSlot) :
    slotAt (setSlot p i f) s =
      if s = i ∧ i < p.buffers_.length then f (slotAt p i) else slotAt p s := by
  by_cases h1 : s = i ∧ i < p.buffers_.length
  · obtain ⟨rfl, h2⟩ := h1
    rw [if_pos (⟨rfl, h2⟩ : s = s ∧ s < p.buffers_.length)]
    unfold slotAt setSlot
    rw [List.getD_eq_getElem _ _ (by simpa using h2)]
    simp
    congr 1
    rw [slotAt, List.getD_eq_getD_get?, List.get?_eq_getElem?]
  · rw [if_neg h1]
    push_neg at h1
    by_cases hs : s = i
    · subst hs
      have hlen : p.buffers_.length ≤ s := h1 rfl
      unfold slotAt setSlot
      rw [List.set_eq_of_length_le (by simpa using hlen)]
    · unfold slotAt setSlot
      by_cases hlt : s < p.buffers_.length
      · rw [List.getD_eq_getElem _ _ (by simpa using hlt),
          List.getD_eq_getElem _ _ hlt]
        simp only
        rw [List.getElem_set_ne (by omega)]
      · rw [List.getD_eq_default _ _ (by simpa using Nat.le_of_not_lt hlt),
          List.getD_eq_default _ _ (Nat.le_of_not_lt hlt)]

theorem slotAt_setSlot_self (p : Producer) (i : Nat)
    (f : BufferHubSlot → BufferHubSlot) (h : i < p.buffers_.length) :
    slotAt (setSlot p i f) i = f (slotAt p i) := by
  rw [slotAt_setSlot, if_pos ⟨rfl, h⟩]

theorem slotAt_setSlot_ne (p : Producer) (i s : Nat)
    (f : BufferHubSlot → BufferHubSlot) (h : s ≠ i) :
    slotAt (setSlot p i f) s = slotAt p s := by
  rw [slotAt_setSlot, if_neg (by simp [h])]

theorem lt_length_of_dequeued (p : Producer) (s : Nat)
    (h : (slotAt p s).mBufferState.isDequeued = true) : s < p.buffers_.length := by
  by_contra hge
  have : slotAt p s = initialSlot :=
    List.getD_eq_default _ _ (Nat.le_of_not_lt hge)
  rw [this] at h
  simp [initialSlot, BufferState.isDequeued] at h

theorem lt_length_of_some_producer (p : Producer) (s : Nat)
    (h : (slotAt p s).mBufferProducer.isSome = true) : s < p.buffers_.length := by
  by_contra hge
  have : slotAt p s = initialSlot :=
    List.getD_eq_default _ _ (Nat.le_of_not_lt hge)
  rw [this] at h
  simp [initialSlot] at h

theorem slotAt_brokerEnqueue (p : Producer) (t s : Nat) :
    slotAt (brokerEnqueue p t) s = slotAt p s := rfl

/-- Evaluation of queueBuffer once every check before the crop test is known
to pass: the call turns on crop containment alone. -/
theorem queueBuffer_checked (p : Producer) (slot : Int) (input : QueueBufferInput)
    (bp : BufferProducer)
    (hsc : validScalingMode input.scalingMode = true)
    (hf : input.fence ≠ none)
    (hconn : ¬ p.connected_api_ = kNoConnectedApi)
    (hrange : ¬ (slot < 0 ∨ p.max_buffer_count_ ≤ slot))
    (hdq : (slotAt p slot.toNat).mBufferState.isDequeued = true)
    (hrc : (slotAt p slot.toNat).mRequestBufferCalled = true)
    (hgb : (slotAt p slot.toNat).mGraphicBuffer ≠ none)
    (hbp : (slotAt p slot.toNat).mBufferProducer = some bp) :
    queueBuffer p slot input false =
      if Rect.intersect input.crop ⟨0, 0, bp.width, bp.height⟩ ≠ input.crop then
        (QueueResult.err BAD_VALUE, p)
      else
        (QueueResult.ok ⟨bp.width, bp.height, 0, 0, 0⟩,
          setSlot (brokerEnqueue p slot.toNat) slot.toNat fun b =>
            { b with mBufferState := b.mBufferState.queue }) := by
  rw [queueBuffer]
  rw [if_neg (by simp), if_neg (by simp [hsc]), if_neg hf, if_neg hconn,
    if_neg hrange, if_neg (by simp [hdq]), if_neg (by simp [hrc, hgb]), hbp]

/-- Claim C8: setMaxDequeuedBufferCount fails with BAD_VALUE exactly when the
count is nonpositive, above the hard capacity constant, or below the current
number of Dequeued slots, leaving the state untouched; otherwise it succeeds
and records the new bound. -/
theorem claim8_set_max_dequeued_count_spec (p : Producer) (n : Int) :
    ((n ≤ 0 ∨ (kMaxQueueCapacity : Int) < n ∨ n < (dequeuedCount p : Int)) →
      setMaxDequeuedBufferCount p n = (BAD_VALUE, p)) ∧
    (¬(n ≤ 0 ∨ (kMaxQueueCapacity : Int) < n ∨ n < (dequeuedCount p : Int)) →
      setMaxDequeuedBufferCount p n =
        (NO_ERROR, { p with max_dequeued_buffer_count_ := n })) := by
  constructor
  · rintro (h | h | h)
    · rw [setMaxDequeuedBufferCount, if_pos (Or.inl h)]
    · rw [setMaxDequeuedBufferCount, if_pos (Or.inr h)]
    · by_cases h2 : n ≤ 0 ∨ (kMaxQueueCapacity : Int) < n
      · rw [setMaxDequeuedBufferCount, if_pos h2]
      · rw [setMaxDequeuedBufferCount, if_neg h2, if_pos h]
  · intro h
    push_neg at h
    obtain ⟨h1, h2, h3⟩ := h
    rw [setMaxDequeuedBufferCount, if_neg (by push_neg; exact ⟨h1, h2⟩),
      if_neg (not_lt.mpr h3)]

/-- Witness for C8 at concrete inputs: zero is rejected with the state
unchanged, and two is accepted and recorded, on the connected initial
producer. -/
theorem claim8_witness :
    setMaxDequeuedBufferCount exConnected 0 = (BAD_VALUE, exConnected) ∧
    setMaxDequeuedBufferCount exConnected 2 =
      (NO_ERROR, { exConnected with max_dequeued_buffer_count_ := 2 }) :=
  ⟨(claim8_set_max_dequeued_count_spec exConnected 0).1 (Or.inl (by decide)),
   (claim8_set_max_dequeued_count_spec exConnected 2).2 (by decide)⟩

/-- Claim C9: queueBuffer validates its input before looking at connection or
slot state.  A null output record, an unrecognized scaling mode, or a null
fence each yield BAD_VALUE with the producer state untouched, for every
producer state, including a disconnected one. -/
theorem claim9_queue_validates_input_first (p : Producer) (slot : Int)
    (input : QueueBufferInput) :
    queueBuffer p slot input true = (QueueResult.err BAD_VALUE, p) ∧
    (validScalingMode input.scalingMode = false →
      queueBuffer p slot input false = (QueueResult.err BAD_VALUE, p)) ∧
    (input.fence = none →
      queueBuffer p slot input false = (QueueResult.err BAD_VALUE, p)) := by
  refine ⟨?_, ?_, ?_⟩
  · rw [queueBuffer, if_pos rfl]
  · intro h
    rw [queueBuffer, if_neg (by simp), if_pos h]
  · intro h
    by_cases hs : validScalingMode input.scalingMode = false
    · rw [queueBuffer, if_neg (by simp), if_pos hs]
    · rw [queueBuffer, if_neg (by simp), if_neg hs, if_pos h]

/-- Witness for C9 on a disconnected producer: a bad scaling mode and a null
fence each yield BAD_VALUE rather than the NO_INIT a connection check would
give. -/
theorem claim9_witness :
    (initProducer 0).connected_api_ = kNoConnectedApi ∧
    queueBuffer (initProducer 0) 0
      { validInput ⟨0, 0, 1, 1⟩ with scalingMode := 7 } false =
      (QueueResult.err BAD_VALUE, initProducer 0) ∧
    queueBuffer (initProducer 0) 0
      { validInput ⟨0, 0, 1, 1⟩ with fence := none } false =
      (QueueResult.err BAD_VALUE, initProducer 0) :=
  ⟨by decide,
   (claim9_queue_validates_input_first (initProducer 0) 0 _).2.1 (by decide),
   (claim9_queue_validates_input_first (initProducer 0) 0 _).2.2 rfl⟩

theorem BufferState.eq_dequeued_of_isDequeued {st : BufferState}
    (h : st.isDequeued = true) : st = BufferState.dequeued := by
  cases st <;> simp [BufferState.isDequeued] at h ⊢

/-- Claim C5: on a validly requested Dequeued slot, queueBuffer rejects with
BAD_VALUE any crop whose intersection with the buffer rectangle differs from
the crop, leaving the state untouched rather than clamping; the crop equal to
the whole buffer rectangle succeeds while the rectangle widened by one pixel
fails. -/
theorem claim5_crop_rejected_not_clamped (p : Producer) (slot : Int)
    (input : QueueBufferInput) (bp : BufferProducer)
    (hsc : validScalingMode input.scalingMode = true)
    (hf : input.fence ≠ none)
    (hconn : ¬ p.connected_api_ = kNoConnectedApi)
    (hrange : ¬ (slot < 0 ∨ p.max_buffer_count_ ≤ slot))
    (hdq : (slotAt p slot.toNat).mBufferState.isDequeued = true)
    (hrc : (slotAt p slot.toNat).mRequestBufferCalled = true)
    (hgb : (slotAt p slot.toNat).mGraphicBuffer ≠ none)
    (hbp : (slotAt p slot.toNat).mBufferProducer = some bp) :
    (Rect.intersect input.crop ⟨0, 0, bp.width, bp.height⟩ ≠ input.crop →
      queueBuffer p slot input false = (QueueResult.err BAD_VALUE, p)) ∧
    (∃ out p', queueBuffer p slot
        { input with crop := ⟨0, 0, bp.width, bp.height⟩ } false =
        (QueueResult.ok out, p')) ∧
    (queueBuffer p slot
        { input with crop := ⟨0, 0, bp.width + 1, bp.height⟩ } false =
      (QueueResult.err BAD_VALUE, p)) := by
  refine ⟨?_, ?_, ?_⟩
  · intro hne
    rw [queueBuffer_checked p slot input bp hsc hf hconn hrange hdq hrc hgb hbp,
      if_pos hne]
  · refine ⟨⟨bp.width, bp.height, 0, 0, 0⟩,
      setSlot (brokerEnqueue p slot.toNat) slot.toNat
        (fun b => { b with mBufferState := b.mBufferState.queue }), ?_⟩
    rw [queueBuffer_checked p slot
      { input with crop := ⟨0, 0, bp.width, bp.height⟩ } bp hsc hf hconn
      hrange hdq hrc hgb hbp,
      if_neg (by simp [Rect.intersect])]
  · rw [queueBuffer_checked p slot
      { input with crop := ⟨0, 0, bp.width + 1, bp.height⟩ } bp hsc hf hconn
      hrange hdq hrc hgb hbp,
      if_pos (by simp [Rect.intersect, Rect.mk.injEq])]

/-- Witness for C5 on the concrete requested state: the in-bounds crop is
accepted and the one-pixel-too-wide crop is rejected. -/
theorem claim5_witness :
    (∃ out p', queueBuffer exReq 0 (validInput ⟨0, 0, 64, 64⟩) false =
      (QueueResult.ok out, p')) ∧
    queueBuffer exReq 0 (validInput ⟨0, 0, 65, 64⟩) false =
      (QueueResult.err BAD_VALUE, exReq) := by
  have h := claim5_crop_rejected_not_clamped exReq 0
    (validInput ⟨0, 0, 64, 64⟩) ⟨64, 64, 1, 0, 64⟩
    (by decide) (by decide) (by decide) (by decide) (by decide) (by decide)
    (by decide) (by decide)
  exact ⟨h.2.1, h.2.2⟩

/-- Claim C6: every successful queueBuffer call reports zero pending buffers
and zero as the next frame number, takes width and height from the queued
buffer, and moves the slot from Dequeued to Queued. -/
theorem claim6_queue_success_output (p : Producer) (slot : Int)
    (input : QueueBufferInput) (isNull : Bool) (out : QueueBufferOutput)
    (p' : Producer)
    (h : queueBuffer p slot input isNull = (QueueResult.ok out, p')) :
    out.numPendingBuffers = 0 ∧ out.nextFrameNumber = 0 ∧
    (∃ bp, (slotAt p slot.toNat).mBufferProducer = some bp ∧
      out.width = bp.width ∧ out.height = bp.height) ∧
    (slotAt p slot.toNat).mBufferState = BufferState.dequeued ∧
    (slotAt p' slot.toNat).mBufferState = BufferState.queued := by
  rw [queueBuffer] at h
  split_ifs at h with h1 h2 h3 h4 h5 h6 h7
  · simp at h
  · simp at h
  · simp at h
  · simp at h
  · simp at h
  · simp at h
  · simp at h
  rcases hbp : (slotAt p slot.toNat).mBufferProducer with _ | bp <;> rw [hbp] at h
  · simp at h
  · dsimp only at h
    split_ifs at h with hc
    · simp at h
    · simp only [Prod.mk.injEq, QueueResult.ok.injEq] at h
      obtain ⟨ho, hp⟩ := h
      subst ho
      subst hp
      have hdq : (slotAt p slot.toNat).mBufferState = BufferState.dequeued :=
        BufferState.eq_dequeued_of_isDequeued (by simpa using h6)
      have hlt : slot.toNat < p.buffers_.length :=
        lt_length_of_dequeued p slot.toNat (by simp [hdq, BufferState.isDequeued])
      refine ⟨rfl, rfl, ⟨bp, rfl, rfl, rfl⟩, hdq, ?_⟩
      rw [slotAt_setSlot_self _ _ _ (by simpa using hlt)]
      simp only [slotAt_brokerEnqueue]
      rw [hdq]
      rfl

/-- Evaluation of requestBuffer when the slot already carries a cached
wrapper: the call fails with BAD_VALUE because the slot is not empty. -/
theorem requestBuffer_cached_fails (q : Producer) (t : Int)
    (hconn : ¬ q.connected_api_ = kNoConnectedApi)
    (hrange : ¬ (t < 0 ∨ q.max_buffer_count_ ≤ t))
    (hdq : (slotAt q t.toNat).mBufferState.isDequeued = true)
    (hgb : (slotAt q t.toNat).mGraphicBuffer ≠ none) :
    requestBuffer q t = (BAD_VALUE, none, q) := by
  rw [requestBuffer, if_neg hconn, if_neg hrange, if_neg (by simp [hdq]),
    if_pos hgb]

/-- Evaluation of requestBuffer on a Dequeued slot with no cached wrapper:
the wrapper is built from the broker buffer, cached, and the request flag
set. -/
theorem requestBuffer_fresh (p : Producer) (slot : Int) (bp : BufferProducer)
    (hconn : ¬ p.connected_api_ = kNoConnectedApi)
    (hrange : ¬ (slot < 0 ∨ p.max_buffer_count_ ≤ slot))
    (hdq : (slotAt p slot.toNat).mBufferState.isDequeued = true)
    (hempty : (slotAt p slot.toNat).mGraphicBuffer = none)
    (hbp : (slotAt p slot.toNat).mBufferProducer = some bp) :
    requestBuffer p slot =
      (NO_ERROR, some ⟨bp.width, bp.height, bp.format, bp.usage, bp.stride⟩,
        setSlot p slot.toNat fun b =>
          { b with
            mGraphicBuffer := some ⟨bp.width, bp.height, bp.format, bp.usage, bp.stride⟩
            mRequestBufferCalled := true }) := by
  rw [requestBuffer, if_neg hconn, if_neg hrange, if_neg (by simp [hdq]),
    if_neg (by simp [hempty]), hbp]

/-- Evaluation of cancelBuffer once its checks pass: the slot is enqueued
back to the broker, the cancel transition applied, and the fence recorded. -/
theorem cancelBuffer_checked (p : Producer) (slot : Int) (f : Fence)
    (hconn : ¬ p.connected_api_ = kNoConnectedApi)
    (hrange : ¬ (slot < 0 ∨ p.max_buffer_count_ ≤ slot))
    (hdq : (slotAt p slot.toNat).mBufferState.isDequeued = true) :
    cancelBuffer p slot (some f) =
      (NO_ERROR, setSlot (brokerEnqueue p slot.toNat) slot.toNat fun b =>
        { b with mBufferState := b.mBufferState.cancel, mFence := some f }) := by
  rw [cancelBuffer, if_neg hconn, if_neg hrange, if_neg (by simp [hdq])]

/-- Claim C2 counterexample: after raising the bound to 2, dequeueing two
buffers, queueing one back, and lowering the bound to 1 (which succeeds since
only one slot is then Dequeued), a further successful dequeue leaves two
slots Dequeued while the bound in force is 1. -/
theorem claim2_counterexample :
    c2e.1 = NO_ERROR ∧
    c2f.1 = DequeueResult.ok 0 NO_ERROR noFence ∧
    c2f.2.1.max_dequeued_buffer_count_ = 1 ∧
    dequeuedCount c2f.2.1 = 2 := by decide

/-- Claim C2 amended: the Dequeued-count bound is enforced only by
setMaxDequeuedBufferCount itself.  Immediately after a successful
set_max_dequeued_buffer_count the count of Dequeued slots is at most the new
bound, which is recorded; dequeueBuffer does not re-check the bound, so a
later dequeue can raise the count above a bound that was lowered in the
meantime. -/
theorem claim2_amended_bound_at_set (p : Producer) (n : Int) (p' : Producer)
    (h : setMaxDequeuedBufferCount p n = (NO_ERROR, p')) :
    (dequeuedCount p' : Int) ≤ n ∧ p'.max_dequeued_buffer_count_ = n := by
  rw [setMaxDequeuedBufferCount] at h
  split_ifs at h with h1 h2
  · obtain ⟨ha, -⟩ := Prod.mk.inj h
    exact absurd ha (by decide)
  · obtain ⟨ha, -⟩ := Prod.mk.inj h
    exact absurd ha (by decide)
  · obtain ⟨-, hp⟩ := Prod.mk.inj h
    subst hp
    exact ⟨not_lt.mp h2, rfl⟩

/-- Witness for the amended C2: lowering the bound to 1 on the state with one
Dequeued slot succeeds and the count is within the new bound at that
instant. -/
theorem claim2_amended_witness :
    (dequeuedCount c2e.2 : Int) ≤ 1 ∧ c2e.2.max_dequeued_buffer_count_ = 1 :=
  claim2_amended_bound_at_set c2d 1 c2e.2 (by decide)

/-- Claim C3 counterexample: a successful cancel of the dequeued and
requested slot 0 returns it to Free but leaves both the request flag and the
cached wrapper set, contradicting the claim that both are cleared. -/
theorem claim3_counterexample :
    exCancel.1 = NO_ERROR ∧
    (slotAt exCancel.2 0).mBufferState = BufferState.free ∧
    (slotAt exCancel.2 0).mRequestBufferCalled = true ∧
    (slotAt exCancel.2 0).mGraphicBuffer = some ⟨64, 64, 1, 0, 64⟩ := by decide

/-- Claim C3 amended: a successful cancel returns the Dequeued slot to Free,
enqueues it back to the broker and records the fence, but leaves the request
flag and the cached presentation wrapper untouched; consequently a later
dequeue may return the slot again, and a request on a Dequeued slot whose
wrapper is still cached fails with BAD_VALUE instead of behaving as on a
fresh occupancy. -/
theorem claim3_amended_cancel_keeps_cache (p : Producer) (slot : Int)
    (f : Fence) (q : Producer) (t : Int)
    (hconn : ¬ p.connected_api_ = kNoConnectedApi)
    (hrange : ¬ (slot < 0 ∨ p.max_buffer_count_ ≤ slot))
    (hdq : (slotAt p slot.toNat).mBufferState.isDequeued = true)
    (hqconn : ¬ q.connected_api_ = kNoConnectedApi)
    (hqrange : ¬ (t < 0 ∨ q.max_buffer_count_ ≤ t))
    (hqdq : (slotAt q t.toNat).mBufferState.isDequeued = true)
    (hqgb : (slotAt q t.toNat).mGraphicBuffer ≠ none) :
    (cancelBuffer p slot (some f)).1 = NO_ERROR ∧
    (slotAt (cancelBuffer p slot (some f)).2 slot.toNat).mBufferState =
      BufferState.free ∧
    (slotAt (cancelBuffer p slot (some f)).2 slot.toNat).mRequestBufferCalled =
      (slotAt p slot.toNat).mRequestBufferCalled ∧
    (slotAt (cancelBuffer p slot (some f)).2 slot.toNat).mGraphicBuffer =
      (slotAt p slot.toNat).mGraphicBuffer ∧
    (slotAt (cancelBuffer p slot (some f)).2 slot.toNat).mFence = some f ∧
    (cancelBuffer p slot (some f)).2.pool = p.pool ++ [slot.toNat] ∧
    (requestBuffer q t).1 = BAD_VALUE := by
  rw [cancelBuffer_checked p slot f hconn hrange hdq]
  have hlt : slot.toNat < (brokerEnqueue p slot.toNat).buffers_.length :=
    lt_length_of_dequeued p slot.toNat hdq
  have hsd : (slotAt p slot.toNat).mBufferState = BufferState.dequeued :=
    BufferState.eq_dequeued_of_isDequeued hdq
  refine ⟨rfl, ?_, ?_, ?_, ?_, rfl, ?_⟩
  · rw [slotAt_setSlot_self _ _ _ hlt]
    simp only [slotAt_brokerEnqueue]
    rw [hsd]
    rfl
  · rw [slotAt_setSlot_self _ _ _ hlt]
    rfl
  · rw [slotAt_setSlot_self _ _ _ hlt]
    rfl
  · rw [slotAt_setSlot_self _ _ _ hlt]
  · rw [requestBuffer_cached_fails q t hqconn hqrange hqdq hqgb]

/-- Witness for the amended C3: the concrete cancel of the requested slot 0
keeps the flag and the wrapper, and the request after re-dequeueing the slot
fails with BAD_VALUE. -/
theorem claim3_amended_witness :
    (cancelBuffer exReq 0 (some ⟨true⟩)).1 = NO_ERROR ∧
    (slotAt (cancelBuffer exReq 0 (some ⟨true⟩)).2 (0 : Int).toNat).mBufferState =
      BufferState.free ∧
    (slotAt (cancelBuffer exReq 0 (some ⟨true⟩)).2 (0 : Int).toNat).mRequestBufferCalled =
      (slotAt exReq (0 : Int).toNat).mRequestBufferCalled ∧
    (requestBuffer (dequeueBuffer exCancel.2 64 64 1 0).2.1 0).1 = BAD_VALUE := by
  have h := claim3_amended_cancel_keeps_cache exReq 0 ⟨true⟩
    (dequeueBuffer exCancel.2 64 64 1 0).2.1 0
    (by decide) (by decide) (by decide) (by decide) (by decide) (by decide)
    (by decide)
  exact ⟨h.1, h.2.1, h.2.2.1, h.2.2.2.2.2.2⟩

/-- Claim C4 counterexample: slot 0, freshly returned by a second successful
dequeue after being requested and queued in its first occupancy, rejects
requestBuffer with BAD_VALUE because the wrapper cache persists. -/
theorem claim4_counterexample :
    exDq2.1 = DequeueResult.ok 0 NO_ERROR noFence ∧
    (requestBuffer exDq2.2.1 0).1 = BAD_VALUE := by decide

/-- Claim C4 amended: request followed immediately by queue succeeds for a
freshly dequeued slot whose wrapper has not yet been created; when the
wrapper is cached from an earlier occupancy, request on the re-dequeued slot
fails with BAD_VALUE, while queue alone still succeeds. -/
theorem claim4_amended_request_then_queue (p : Producer) (slot : Int)
    (input : QueueBufferInput) (bp : BufferProducer)
    (hconn : ¬ p.connected_api_ = kNoConnectedApi)
    (hrange : ¬ (slot < 0 ∨ p.max_buffer_count_ ≤ slot))
    (hdq : (slotAt p slot.toNat).mBufferState.isDequeued = true)
    (hempty : (slotAt p slot.toNat).mGraphicBuffer = none)
    (hbp : (slotAt p slot.toNat).mBufferProducer = some bp)
    (hsc : validScalingMode input.scalingMode = true)
    (hf : input.fence ≠ none)
    (hcrop : Rect.intersect input.crop ⟨0, 0, bp.width, bp.height⟩ = input.crop) :
    (requestBuffer p slot).1 = NO_ERROR ∧
    (∃ out p', queueBuffer (requestBuffer p slot).2.2 slot input false =
      (QueueResult.ok out, p')) ∧
    (∀ q t, ¬ q.connected_api_ = kNoConnectedApi →
      ¬ (t < 0 ∨ q.max_buffer_count_ ≤ t) →
      (slotAt q t.toNat).mBufferState.isDequeued = true →
      (slotAt q t.toNat).mGraphicBuffer ≠ none →
      (requestBuffer q t).1 = BAD_VALUE) ∧
    (∀ q (t : Int) (inp : QueueBufferInput) (bq : BufferProducer),
      ¬ q.connected_api_ = kNoConnectedApi →
      ¬ (t < 0 ∨ q.max_buffer_count_ ≤ t) →
      (slotAt q t.toNat).mBufferState.isDequeued = true →
      (slotAt q t.toNat).mRequestBufferCalled = true →
      (slotAt q t.toNat).mGraphicBuffer ≠ none →
      (slotAt q t.toNat).mBufferProducer = some bq →
      validScalingMode inp.scalingMode = true →
      inp.fence ≠ none →
      Rect.intersect inp.crop ⟨0, 0, bq.width, bq.height⟩ = inp.crop →
      ∃ out p', queueBuffer q t inp false = (QueueResult.ok out, p')) := by
  rw [requestBuffer_fresh p slot bp hconn hrange hdq hempty hbp]
  have hlt : slot.toNat < p.buffers_.length := lt_length_of_dequeued p _ hdq
  have hslot2 : slotAt (setSlot p slot.toNat fun b =>
      { b with
        mGraphicBuffer := some ⟨bp.width, bp.height, bp.format, bp.usage, bp.stride⟩
        mRequestBufferCalled := true }) slot.toNat =
      { slotAt p slot.toNat with
        mGraphicBuffer := some ⟨bp.width, bp.height, bp.format, bp.usage, bp.stride⟩
        mRequestBufferCalled := true } :=
    slotAt_setSlot_self p slot.toNat _ hlt
  refine ⟨rfl, ?_, ?_, ?_⟩
  · refine ⟨⟨bp.width, bp.height, 0, 0, 0⟩,
      setSlot (brokerEnqueue (setSlot p slot.toNat fun b =>
        { b with
          mGraphicBuffer := some ⟨bp.width, bp.height, bp.format, bp.usage, bp.stride⟩
          mRequestBufferCalled := true }) slot.toNat) slot.toNat
        (fun b => { b with mBufferState := b.mBufferState.queue }), ?_⟩
    show queueBuffer (setSlot p slot.toNat fun b =>
        { b with
          mGraphicBuffer := some ⟨bp.width, bp.height, bp.format, bp.usage, bp.stride⟩
          mRequestBufferCalled := true }) slot input false = _
    rw [queueBuffer_checked (setSlot p slot.toNat fun b =>
        { b with
          mGraphicBuffer := some ⟨bp.width, bp.height, bp.format, bp.usage, bp.stride⟩
          mRequestBufferCalled := true }) slot input bp hsc hf hconn hrange
      (by rw [hslot2]; exact hdq) (by rw [hslot2]) (by rw [hslot2]; simp)
      (by rw [hslot2]; exact hbp), if_neg (by simp [hcrop])]
  · intro q t hq1 hq2 hq3 hq4
    rw [requestBuffer_cached_fails q t hq1 hq2 hq3 hq4]
  · intro q t inp bq hq1 hq2 hq3 hq4 hq5 hq6 hq7 hq8 hq9
    refine ⟨⟨bq.width, bq.height, 0, 0, 0⟩,
      setSlot (brokerEnqueue q t.toNat) t.toNat
        (fun b => { b with mBufferState := b.mBufferState.queue }), ?_⟩
    rw [queueBuffer_checked q t inp bq hq7 hq8 hq1 hq2 hq3 hq4 hq5 hq6,
      if_neg (by simp [hq9])]

/-- Witness for the amended C4: on the freshly dequeued slot 0 the request
and the immediately following queue both succeed, on the re-dequeued
cached slot the request fails, and on that same re-dequeued cached slot a
queue alone still succeeds. -/
theorem claim4_amended_witness :
    (requestBuffer exDq1 0).1 = NO_ERROR ∧
    (∃ out p', queueBuffer (requestBuffer exDq1 0).2.2 0
      (validInput ⟨0, 0, 64, 64⟩) false = (QueueResult.ok out, p')) ∧
    (requestBuffer exDq2.2.1 0).1 = BAD_VALUE ∧
    (∃ out p', queueBuffer exDq2.2.1 0 (validInput ⟨0, 0, 64, 64⟩) false =
      (QueueResult.ok out, p')) := by
  have h := claim4_amended_request_then_queue exDq1 0
    (validInput ⟨0, 0, 64, 64⟩) ⟨64, 64, 1, 0, 64⟩
    (by decide) (by decide) (by decide) (by decide) (by decide) (by decide)
    (by decide) (by decide)
  exact ⟨h.1, h.2.1, h.2.2.1 exDq2.2.1 0 (by decide) (by decide) (by decide)
    (by decide),
    h.2.2.2 exDq2.2.1 0 (validInput ⟨0, 0, 64, 64⟩) ⟨64, 64, 1, 0, 64⟩
      (by decide) (by decide) (by decide) (by decide) (by decide) (by decide)
      (by decide) (by decide) (by decide)⟩

/-- Evaluation of the broker dequeue primitive on a nonempty pool whose head
slot holds a buffer. -/
theorem brokerDequeue_cons (p : Producer) (s : Nat) (rest : List Nat)
    (bp : BufferProducer) (hpool : p.pool = s :: rest)
    (hbp : (slotAt p s).mBufferProducer = some bp) :
    brokerDequeue p = some (s, bp, { p with pool := rest }) := by
  rw [brokerDequeue, hpool]
  dsimp only
  rw [hbp]

/-- One iteration of the retry loop on a mismatched head buffer when the
replacement allocation fails: the loop stops with the error, the slot marked
reallocating and detached. -/
theorem dequeueLoop_mismatch_alloc_fail (w h fmt usage : Int) (fuel : Nat)
    (p : Producer) (last : Option Nat) (s : Nat) (rest : List Nat)
    (bp : BufferProducer)
    (hpool : p.pool = s :: rest)
    (hbp : (slotAt p s).mBufferProducer = some bp)
    (hmm : ¬ (bp.width = w ∧ bp.height = h ∧ bp.format = fmt))
    (hbudget : p.allocBudget = 0) :
    dequeueLoop w h fmt usage (fuel + 1) p last =
      (LoopOut.err NO_MEMORY,
        detachBuffer (setSlot { p with pool := rest } s fun b =>
          { b with mIsReallocating := true }) s, 1) := by
  rw [dequeueLoop, brokerDequeue_cons p s rest bp hpool hbp]
  dsimp only
  rw [if_neg hmm]
  rw [allocateBuffer, if_pos (by simpa using hbudget)]

theorem slotAt_detachBuffer (p : Producer) (s t : Nat) :
    slotAt (detachBuffer p s) t =
      slotAt (setSlot p s fun b => { b with
        mBufferProducer := none
        mGraphicBuffer := none
        mRequestBufferCalled := false }) t := rfl

theorem pool_detachBuffer (p : Producer) (s : Nat) :
    (detachBuffer p s).pool = p.pool.filter (fun t => t ≠ s) := rfl

theorem brokerDequeue_nil (p : Producer) (hpool : p.pool = []) :
    brokerDequeue p = none := by
  rw [brokerDequeue, hpool]

theorem allocateBuffer_error (p : Producer) (w h fmt usage e : Int)
    (halloc : allocateBuffer p w h fmt usage = Except.error e) :
    e = NO_MEMORY := by
  rw [allocateBuffer] at halloc
  split_ifs at halloc with h1
  · exact (Except.error.inj halloc).symm
  · rcases hlf : lowestFree p with _ | u <;> rw [hlf] at halloc
    · exact (Except.error.inj halloc).symm
    · simp at halloc

theorem lowestFree_lt (p : Producer) (u : Nat) (h : lowestFree p = some u) :
    u < kMaxQueueCapacity := by
  have hm := List.mem_of_find?_eq_some h
  simpa using hm

theorem lowestFree_none_at (p : Producer) (u : Nat) (h : lowestFree p = some u) :
    (slotAt p u).mBufferProducer = none := by
  have hp := List.find?_some h
  simpa [Option.isNone_iff_eq_none] using hp

theorem find?_range'_min (P : Nat → Bool) :
    ∀ (n a u : Nat), (List.range' a n).find? P = some u →
      ∀ v, a ≤ v → v < u → P v = false := by
  intro n
  induction n with
  | zero => intro a u h; simp at h
  | succ n ih =>
      intro a u h v hav hvu
      rw [List.range'_succ] at h
      rcases hPa : P a with _ | _
      · rw [List.find?_cons_of_neg _ (by simp [hPa])] at h
        rcases Nat.eq_or_lt_of_le hav with rfl | hlt
        · exact hPa
        · exact ih (a + 1) u h v hlt hvu
      · rw [List.find?_cons_of_pos _ hPa] at h
        have : u = a := (Option.some.inj h).symm
        omega

theorem lowestFree_min (p : Producer) (u : Nat) (h : lowestFree p = some u) :
    ∀ v, v < u → (slotAt p v).mBufferProducer.isSome = true := by
  intro v hvu
  rw [lowestFree, List.range_eq_range'] at h
  have := find?_range'_min _ kMaxQueueCapacity 0 u h v (Nat.zero_le v) hvu
  simpa [Option.isNone_iff_eq_none, Option.isSome_iff_ne_none] using this

theorem find?_range'_first (P : Nat → Bool) :
    ∀ (n a u : Nat), a ≤ u → u < a + n → P u = true →
      (∀ v, a ≤ v → v < u → P v = false) →
      (List.range' a n).find? P = some u := by
  intro n
  induction n with
  | zero => intro a u h1 h2; omega
  | succ n ih =>
      intro a u h1 h2 hP hmin
      rw [List.range'_succ]
      rcases Nat.eq_or_lt_of_le h1 with rfl | hlt
      · rw [List.find?_cons_of_pos _ hP]
      · rw [List.find?_cons_of_neg _ (by simp [hmin a (Nat.le_refl a) hlt])]
        exact ih (a + 1) u hlt (by omega) hP fun v hv1 hv2 =>
          hmin v (by omega) hv2

theorem lowestFree_eq_some (p : Producer) (u : Nat) (hu : u < kMaxQueueCapacity)
    (hnone : (slotAt p u).mBufferProducer = none)
    (hmin : ∀ v, v < u → (slotAt p v).mBufferProducer.isSome = true) :
    lowestFree p = some u := by
  rw [lowestFree, List.range_eq_range']
  exact find?_range'_first _ kMaxQueueCapacity 0 u (Nat.zero_le u)
    (by omega) (by simp [hnone]) fun v hv1 hv2 => by
      simpa [Option.isNone_iff_eq_none, Option.isSome_iff_ne_none] using hmin v hv2

theorem allocateBuffer_ok_facts (p : Producer) (w h fmt usage : Int)
    (p4 : Producer) (halloc : allocateBuffer p w h fmt usage = Except.ok p4) :
    ∃ u, lowestFree p = some u ∧
      p4.pool = p.pool ++ [u] ∧
      p4.buffers_.length = p.buffers_.length ∧
      (u < p.buffers_.length →
        slotAt p4 u = { slotAt p u with
          mBufferProducer := some ⟨w, h, fmt, usage, w⟩ }) ∧
      (∀ t, t ≠ u → slotAt p4 t = slotAt p t) ∧
      p4.connected_api_ = p.connected_api_ := by
  rw [allocateBuffer] at halloc
  split_ifs at halloc with h1
  rcases hlf : lowestFree p with _ | u <;> rw [hlf] at halloc
  · simp at halloc
  · obtain hp4 := (Except.ok.inj halloc).symm
    subst hp4
    refine ⟨u, rfl, rfl, by simp [length_setSlot], ?_, ?_, rfl⟩
    · intro hlt
      exact slotAt_setSlot_self p u
        (fun b => { b with mBufferProducer := some ⟨w, h, fmt, usage, w⟩ }) hlt
    · intro t ht
      exact slotAt_setSlot_ne p u t
        (fun b => { b with mBufferProducer := some ⟨w, h, fmt, usage, w⟩ }) ht

theorem detachBuffer_facts (p : Producer) (s : Nat) (hs : s < p.buffers_.length) :
    (detachBuffer p s).pool = p.pool.filter (fun t => t ≠ s) ∧
    (detachBuffer p s).buffers_.length = p.buffers_.length ∧
    slotAt (detachBuffer p s) s = { slotAt p s with
      mBufferProducer := none
      mGraphicBuffer := none
      mRequestBufferCalled := false } ∧
    (∀ t, t ≠ s → slotAt (detachBuffer p s) t = slotAt p t) ∧
    (detachBuffer p s).connected_api_ = p.connected_api_ ∧
    (detachBuffer p s).allocBudget = p.allocBudget := by
  refine ⟨rfl, by simp [detachBuffer, length_setSlot, setSlot], ?_, ?_, rfl, rfl⟩
  · rw [slotAt_detachBuffer]
    exact slotAt_setSlot_self p s _ hs
  · intro t ht
    rw [slotAt_detachBuffer]
    exact slotAt_setSlot_ne p s t _ ht

theorem nodup_append_singleton (l : List Nat) (a : Nat) (hl : l.Nodup)
    (ha : a ∉ l) : (l ++ [a]).Nodup := by
  rw [List.nodup_append]
  refine ⟨hl, List.nodup_singleton a, ?_⟩
  intro b hb hb2
  simp only [List.mem_singleton] at hb2
  exact ha (hb2 ▸ hb)

theorem capacity_eq_of_all_some (p : Producer)
    (hlen : p.buffers_.length = kMaxQueueCapacity)
    (hall : ∀ i, i < kMaxQueueCapacity →
      (slotAt p i).mBufferProducer.isSome = true) :
    capacity p = kMaxQueueCapacity := by
  rw [capacity, ← hlen]
  rw [List.countP_eq_length]
  intro b hb
  obtain ⟨i, hi, hib⟩ := List.mem_iff_getElem.mp hb
  have : slotAt p i = b := by
    rw [slotAt, List.getD_eq_getElem _ _ hi, hib]
  rw [← this]
  exact hall i (by omega)

theorem all_some_of_capacity_eq (p : Producer)
    (hlen : p.buffers_.length = kMaxQueueCapacity)
    (hcap : capacity p = kMaxQueueCapacity) :
    ∀ i, i < kMaxQueueCapacity → (slotAt p i).mBufferProducer.isSome = true := by
  intro i hi
  rw [capacity, ← hlen] at hcap
  have hall := List.countP_eq_length.mp hcap
  have hilt : i < p.buffers_.length := by omega
  have := hall (p.buffers_[i]) (List.getElem_mem hilt)
  rw [slotAt, List.getD_eq_getElem _ _ hilt]
  simpa using this

theorem all_some_of_full_pool (p : Producer)
    (hnd : p.pool.Nodup)
    (hmem : ∀ s ∈ p.pool, s < kMaxQueueCapacity ∧
      (slotAt p s).mBufferProducer.isSome = true)
    (hfull : p.pool.length = kMaxQueueCapacity) :
    ∀ i, i < kMaxQueueCapacity → (slotAt p i).mBufferProducer.isSome = true := by
  intro i hi
  have hsub : p.pool.toFinset ⊆ Finset.range kMaxQueueCapacity := by
    intro x hx
    rw [List.mem_toFinset] at hx
    exact Finset.mem_range.mpr (hmem x hx).1
  have hcard : p.pool.toFinset.card = kMaxQueueCapacity := by
    rw [List.toFinset_card_of_nodup hnd, hfull]
  have heq : p.pool.toFinset = Finset.range kMaxQueueCapacity :=
    Finset.eq_of_subset_of_card_le hsub (by simp [hcard])
  have : i ∈ p.pool := by
    rw [← List.mem_toFinset, heq]
    exact Finset.mem_range.mpr hi
  exact (hmem i this).2

/-- The central invariant argument for the retry loop of dequeueBuffer.  The
pool splits into a prefix of distinct previously available slots with
arbitrary buffers and a suffix of freshly allocated slots whose buffers match
the request; every Dequeued slot holds a buffer; and either the broker is at
full capacity with a well-formed carry slot, or there are fewer old entries
than remaining fuel (so the fuel cannot run out).  Under this invariant every
outcome of the loop satisfies LoopConcl. -/
theorem dequeueLoop_spec (w h fmt usage : Int) :
    ∀ (fuel : Nat) (p : Producer) (olds news : List Nat) (last : Option Nat),
    p.pool = olds ++ news →
    p.buffers_.length = kMaxQueueCapacity →
    (olds ++ news).Nodup →
    (∀ s ∈ olds, s < kMaxQueueCapacity ∧
      (slotAt p s).mBufferProducer.isSome = true ∧
      (slotAt p s).mBufferState.isDequeued = false) →
    (∀ s ∈ news, GoodSlot w h fmt p s) →
    (∀ s, s < kMaxQueueCapacity → (slotAt p s).mBufferState.isDequeued = true →
      (slotAt p s).mBufferProducer.isSome = true) →
    ((capacity p = kMaxQueueCapacity ∧
        ∀ s, last = some s → GoodSlot w h fmt p s) ∨ olds.length < fuel) →
    LoopConcl w h fmt fuel last (dequeueLoop w h fmt usage fuel p last) := by
  intro fuel
  induction fuel with
  | zero =>
      intro p olds news last hpool hlen hnd holds hnews hI5 hdisj
      show LoopConcl w h fmt 0 last (LoopOut.exhausted last, p, 0)
      refine ⟨Nat.le_refl 0, hlen, ?_, ?_, ?_⟩
      · intro e he
        simp at he
      · intro s hs
        simp at hs
      · intro l hl
        simp only at hl
        obtain rfl := LoopOut.exhausted.inj hl
        refine ⟨fun h0 => ⟨rfl, h0⟩, ?_⟩
        intro s hs
        rcases hdisj with ⟨hcap, hgood⟩ | habs
        · exact hgood s hs
        · exact absurd habs (Nat.not_lt_zero _)
  | succ fuel ih =>
      intro p olds news last hpool hlen hnd holds hnews hI5 hdisj
      cases olds with
      | nil =>
          cases news with
          | nil =>
              have hpool0 : p.pool = [] := by simpa using hpool
              have hr : dequeueLoop w h fmt usage (fuel + 1) p last =
                  (LoopOut.err NO_MEMORY, p, 1) := by
                rw [dequeueLoop, brokerDequeue_nil p hpool0]
              rw [hr]
              refine ⟨Nat.succ_le_succ (Nat.zero_le fuel), hlen, ?_, ?_, ?_⟩
              · intro e he
                simp only at he
                exact (LoopOut.err.inj he).symm
              · intro s hs
                simp at hs
              · intro l hl
                simp at hl
          | cons t ts =>
              obtain ⟨htlt, ⟨bp, hbp, hgeom⟩, hstate⟩ := hnews t (by simp)
              have hpool2 : p.pool = t :: ts := by simpa using hpool
              have hr : dequeueLoop w h fmt usage (fuel + 1) p last =
                  (LoopOut.matched t, { p with pool := ts }, 1) := by
                rw [dequeueLoop, brokerDequeue_cons p t ts bp hpool2 hbp]
                dsimp only
                rw [if_pos (show bp.width = w ∧ bp.height = h ∧ bp.format = fmt
                  from hgeom)]
              rw [hr]
              refine ⟨Nat.succ_le_succ (Nat.zero_le fuel), hlen, ?_, ?_, ?_⟩
              · intro e he
                simp at he
              · intro s hs
                simp only at hs
                obtain rfl := LoopOut.matched.inj hs
                exact ⟨htlt, ⟨bp, hbp, hgeom⟩, hstate⟩
              · intro l hl
                simp at hl
      | cons s olds2 =>
          obtain ⟨hslt, hsome, hsdq⟩ := holds s (by simp)
          obtain ⟨bp, hbp⟩ := Option.isSome_iff_exists.mp hsome
          have hpool2 : p.pool = s :: (olds2 ++ news) := by simpa using hpool
          have hnd2 : (s :: (olds2 ++ news)).Nodup := by simpa using hnd
          have hsnotin : s ∉ olds2 ++ news := (List.nodup_cons.mp hnd2).1
          have hnd3 : (olds2 ++ news).Nodup := (List.nodup_cons.mp hnd2).2
          by_cases hm : bp.width = w ∧ bp.height = h ∧ bp.format = fmt
          · have hr : dequeueLoop w h fmt usage (fuel + 1) p last =
                (LoopOut.matched s, { p with pool := olds2 ++ news }, 1) := by
              rw [dequeueLoop,
                brokerDequeue_cons p s (olds2 ++ news) bp hpool2 hbp]
              dsimp only
              rw [if_pos hm]
            rw [hr]
            refine ⟨Nat.succ_le_succ (Nat.zero_le fuel), hlen, ?_, ?_, ?_⟩
            · intro e he
              simp at he
            · intro s' hs'
              simp only at hs'
              obtain rfl := LoopOut.matched.inj hs'
              exact ⟨hslt, ⟨bp, hbp, hm⟩, hsdq⟩
            · intro l hl
              simp at hl
          · have hsltp : s < p.buffers_.length := by rw [hlen]; exact hslt
            have hlen2 : (setSlot ({ p with pool := olds2 ++ news } : Producer) s (fun b => { b with mIsReallocating := true })).buffers_.length = kMaxQueueCapacity := by
              rw [length_setSlot]; exact hlen
            have hs2 : s < (setSlot ({ p with pool := olds2 ++ news } : Producer) s (fun b => { b with mIsReallocating := true })).buffers_.length := by rw [hlen2]; exact hslt
            have hslot2self : slotAt (setSlot ({ p with pool := olds2 ++ news } : Producer) s (fun b => { b with mIsReallocating := true })) s =
                { slotAt p s with mIsReallocating := true } :=
              slotAt_setSlot_self ({ p with pool := olds2 ++ news } : Producer) s
                (fun b => { b with mIsReallocating := true }) hsltp
            have hslot2ne : ∀ t, t ≠ s → slotAt (setSlot ({ p with pool := olds2 ++ news } : Producer) s (fun b => { b with mIsReallocating := true })) t = slotAt p t :=
              fun t ht => slotAt_setSlot_ne ({ p with pool := olds2 ++ news } : Producer) s t
                (fun b => { b with mIsReallocating := true }) ht
            obtain ⟨hd_pool, hd_len, hd_self, hd_ne, -, -⟩ :=
              detachBuffer_facts (setSlot ({ p with pool := olds2 ++ news } : Producer) s (fun b => { b with mIsReallocating := true })) s hs2
            have hlen3 : (detachBuffer (setSlot ({ p with pool := olds2 ++ news } : Producer) s (fun b => { b with mIsReallocating := true })) s).buffers_.length = kMaxQueueCapacity := by
              rw [hd_len]; exact hlen2
            have hpool3 : (detachBuffer (setSlot ({ p with pool := olds2 ++ news } : Producer) s (fun b => { b with mIsReallocating := true })) s).pool = olds2 ++ news := by
              rw [hd_pool]
              show (olds2 ++ news).filter (fun t => t ≠ s) = olds2 ++ news
              rw [List.filter_eq_self]
              intro a ha
              have : a ≠ s := fun he => hsnotin (he ▸ ha)
              simpa using this
            have hslot3self : slotAt (detachBuffer (setSlot ({ p with pool := olds2 ++ news } : Producer) s (fun b => { b with mIsReallocating := true })) s) s =
                { slotAt p s with
                  mIsReallocating := true
                  mBufferProducer := none
                  mGraphicBuffer := none
                  mRequestBufferCalled := false } := by
              rw [hd_self, hslot2self]
            have hslot3ne : ∀ t, t ≠ s → slotAt (detachBuffer (setSlot ({ p with pool := olds2 ++ news } : Producer) s (fun b => { b with mIsReallocating := true })) s) t = slotAt p t :=
              fun t ht => by rw [hd_ne t ht, hslot2ne t ht]
            have hstate3 : ∀ t, (slotAt (detachBuffer (setSlot ({ p with pool := olds2 ++ news } : Producer) s (fun b => { b with mIsReallocating := true })) s) t).mBufferState =
                (slotAt p t).mBufferState := by
              intro t
              by_cases ht : t = s
              · subst ht
                rw [hslot3self]
              · rw [hslot3ne t ht]
            have hr0 : dequeueLoop w h fmt usage (fuel + 1) p last =
                (match allocateBuffer (detachBuffer (setSlot ({ p with pool := olds2 ++ news } : Producer) s (fun b => { b with mIsReallocating := true })) s) w h fmt usage with
                 | Except.error e => (LoopOut.err e, (detachBuffer (setSlot ({ p with pool := olds2 ++ news } : Producer) s (fun b => { b with mIsReallocating := true })) s), 1)
                 | Except.ok p4 =>
                     ((dequeueLoop w h fmt usage fuel p4 (some s)).1,
                      (dequeueLoop w h fmt usage fuel p4 (some s)).2.1,
                      (dequeueLoop w h fmt usage fuel p4 (some s)).2.2 + 1)) := by
              rw [dequeueLoop,
                brokerDequeue_cons p s (olds2 ++ news) bp hpool2 hbp]
              dsimp only
              rw [if_neg hm]
            cases halloc : allocateBuffer (detachBuffer (setSlot ({ p with pool := olds2 ++ news } : Producer) s (fun b => { b with mIsReallocating := true })) s) w h fmt usage with
            | error e =>
                rw [halloc] at hr0
                rw [hr0]
                have he := allocateBuffer_error (detachBuffer (setSlot ({ p with pool := olds2 ++ news } : Producer) s (fun b => { b with mIsReallocating := true })) s) w h fmt usage e halloc
                refine ⟨Nat.succ_le_succ (Nat.zero_le fuel), hlen3, ?_, ?_, ?_⟩
                · intro e' he'
                  simp only at he'
                  obtain rfl := LoopOut.err.inj he'
                  exact he
                · intro s' hs'
                  simp at hs'
                · intro l hl
                  simp at hl
            | ok p4 =>
                rw [halloc] at hr0
                rw [hr0]
                obtain ⟨u, hlf, hp4pool, hp4len, hp4self, hp4ne, -⟩ :=
                  allocateBuffer_ok_facts (detachBuffer (setSlot ({ p with pool := olds2 ++ news } : Producer) s (fun b => { b with mIsReallocating := true })) s) w h fmt usage p4 halloc
                have hult : u < kMaxQueueCapacity := lowestFree_lt (detachBuffer (setSlot ({ p with pool := olds2 ++ news } : Producer) s (fun b => { b with mIsReallocating := true })) s) u hlf
                have hu3 : u < (detachBuffer (setSlot ({ p with pool := olds2 ++ news } : Producer) s (fun b => { b with mIsReallocating := true })) s).buffers_.length := by
                  rw [hlen3]; exact hult
                have hp4selfu := hp4self hu3
                have hunone : (slotAt (detachBuffer (setSlot ({ p with pool := olds2 ++ news } : Producer) s (fun b => { b with mIsReallocating := true })) s) u).mBufferProducer = none :=
                  lowestFree_none_at (detachBuffer (setSlot ({ p with pool := olds2 ++ news } : Producer) s (fun b => { b with mIsReallocating := true })) s) u hlf
                have hlen4 : p4.buffers_.length = kMaxQueueCapacity := by
                  rw [hp4len]; exact hlen3
                have hunotin : u ∉ olds2 ++ news := by
                  intro hu
                  have hne : u ≠ s := fun he => hsnotin (he ▸ hu)
                  rw [hslot3ne u hne] at hunone
                  rcases List.mem_append.mp hu with h2 | h2
                  · obtain ⟨-, hsome2, -⟩ := holds u (List.mem_cons_of_mem s h2)
                    rw [hunone] at hsome2
                    simp at hsome2
                  · obtain ⟨-, ⟨bp2, hbp2, -⟩, -⟩ := hnews u h2
                    rw [hunone] at hbp2
                    simp at hbp2
                have hstate4 : ∀ t, (slotAt p4 t).mBufferState =
                    (slotAt p t).mBufferState := by
                  intro t
                  by_cases ht : t = u
                  · subst ht
                    rw [hp4selfu]
                    exact hstate3 t
                  · rw [hp4ne t ht, hstate3 t]
                have hprod4 : ∀ t, t ≠ u → t ≠ s →
                    (slotAt p4 t).mBufferProducer =
                      (slotAt p t).mBufferProducer := by
                  intro t h1 h2
                  rw [hp4ne t h1, hslot3ne t h2]
                have ihc := ih p4 olds2 (news ++ [u]) (some s)
                  (by rw [hp4pool, hpool3, List.append_assoc])
                  hlen4
                  (by
                    rw [← List.append_assoc]
                    exact nodup_append_singleton (olds2 ++ news) u hnd3 hunotin)
                  (by
                    intro t ht
                    have htin : t ∈ olds2 ++ news := List.mem_append_left news ht
                    have hts : t ≠ s := fun he => hsnotin (he ▸ htin)
                    have htu : t ≠ u := fun he => hunotin (he ▸ htin)
                    obtain ⟨k1, k2, k3⟩ := holds t (List.mem_cons_of_mem s ht)
                    rw [hp4ne t htu, hslot3ne t hts]
                    exact ⟨k1, k2, k3⟩)
                  (by
                    intro t ht
                    rcases List.mem_append.mp ht with h2 | h2
                    · have htin : t ∈ olds2 ++ news :=
                        List.mem_append_right olds2 h2
                      have hts : t ≠ s := fun he => hsnotin (he ▸ htin)
                      have htu : t ≠ u := fun he => hunotin (he ▸ htin)
                      obtain ⟨k1, k2, k3⟩ := hnews t h2
                      have hslott : slotAt p4 t = slotAt p t := by
                        rw [hp4ne t htu, hslot3ne t hts]
                      refine ⟨k1, ?_, ?_⟩
                      · rw [hslott]
                        exact k2
                      · rw [hslott]
                        exact k3
                    · simp only [List.mem_singleton] at h2
                      subst h2
                      refine ⟨hult, ⟨⟨w, h, fmt, usage, w⟩, ?_, ⟨rfl, rfl, rfl⟩⟩, ?_⟩
                      · rw [hp4selfu]
                      · show (slotAt p4 t).mBufferState.isDequeued = false
                        rw [hstate4 t]
                        by_cases hus : t = s
                        · subst hus
                          exact hsdq
                        · have hnone2 : (slotAt p t).mBufferProducer = none := by
                            rw [← hslot3ne t hus]
                            exact hunone
                          by_contra hcon
                          simp only [Bool.not_eq_false] at hcon
                          have hd := hI5 t hult hcon
                          rw [hnone2] at hd
                          simp at hd)
                  (by
                    intro t htl htdq
                    rw [hstate4 t] at htdq
                    by_cases htu : t = u
                    · subst htu
                      rw [hp4selfu]
                      rfl
                    · by_cases hts : t = s
                      · subst hts
                        exact absurd htdq (by simp [hsdq])
                      · rw [hprod4 t htu hts]
                        exact hI5 t htl htdq)
                  (by
                    rcases hdisj with ⟨hcap, -⟩ | hlt2
                    · left
                      have hall := all_some_of_capacity_eq p hlen hcap
                      have hus : u = s := by
                        by_contra hne
                        have hsome3 := hall u hult
                        rw [← hslot3ne u hne] at hsome3
                        rw [hunone] at hsome3
                        simp at hsome3
                      constructor
                      · apply capacity_eq_of_all_some p4 hlen4
                        intro i hi
                        by_cases his : i = u
                        · subst his
                          rw [hp4selfu]
                          rfl
                        · have his2 : i ≠ s := by rw [← hus]; exact his
                          rw [hprod4 i his his2]
                          exact hall i hi
                      · intro s' hs'
                        obtain rfl := Option.some.inj hs'
                        refine ⟨hslt, ⟨⟨w, h, fmt, usage, w⟩, ?_, ⟨rfl, rfl, rfl⟩⟩, ?_⟩
                        · rw [← hus, hp4selfu]
                        · show (slotAt p4 s).mBufferState.isDequeued = false
                          rw [hstate4 s]
                          exact hsdq
                    · right
                      simp only [List.length_cons] at hlt2
                      omega)
                obtain ⟨ih1, ih2, ih3, ih4, ih5⟩ := ihc
                refine ⟨Nat.succ_le_succ ih1, ih2, ih3, ih4, ?_⟩
                intro l hl
                obtain ⟨hnone2, hsome2⟩ := ih5 l hl
                refine ⟨?_, hsome2⟩
                intro hln
                exact absurd (hnone2 hln).2 (by simp)

theorem setSlot_field_eq {α : Type} (g : BufferHubSlot → α) (p : Producer)
    (i t : Nat) (f : BufferHubSlot → BufferHubSlot)
    (hf : ∀ b, g (f b) = g b) :
    g (slotAt (setSlot p i f) t) = g (slotAt p t) := by
  rw [slotAt_setSlot]
  split_ifs with hc
  · obtain ⟨rfl, -⟩ := hc
    exact hf (slotAt p t)
  · rfl

theorem pool_length_le_kMax (p : Producer) (hnd : p.pool.Nodup)
    (hmem : ∀ s ∈ p.pool, s < kMaxQueueCapacity) :
    p.pool.length ≤ kMaxQueueCapacity := by
  have hsub : p.pool.toFinset ⊆ Finset.range kMaxQueueCapacity := by
    intro x hx
    rw [List.mem_toFinset] at hx
    exact Finset.mem_range.mpr (hmem x hx)
  have := Finset.card_le_card hsub
  rw [List.toFinset_card_of_nodup hnd, Finset.card_range] at this
  exact this

/-- The acceptance tail never aborts on a slot that is not Dequeued: it
returns that slot with the no-op fence and keeps the slot's buffer. -/
theorem acceptSlot_spec (p2 : Producer) (s n : Nat)
    (hnd : (slotAt p2 s).mBufferState.isDequeued = false) :
    (acceptSlot p2 s n).2.2 = n ∧
    (∃ ret, (acceptSlot p2 s n).1 = DequeueResult.ok s ret noFence) ∧
    (slotAt (acceptSlot p2 s n).2.1 s).mBufferProducer =
      (slotAt p2 s).mBufferProducer := by
  have hnf : ¬((slotAt p2 s).mBufferState.isFree = false ∧
      (slotAt p2 s).mBufferState.isQueued = false) := by
    rintro ⟨hf, hq⟩
    cases hst : (slotAt p2 s).mBufferState
    · rw [hst] at hf
      simp [BufferState.isFree] at hf
    · rw [hst] at hnd
      simp [BufferState.isDequeued] at hnd
    · rw [hst] at hq
      simp [BufferState.isQueued] at hq
  rw [acceptSlot, if_neg hnf]
  dsimp only
  by_cases hmark : (slotAt (setSlot p2 s fun b =>
      { b with mBufferState := b.mBufferState.freeQueued.dequeue }) s).mIsReallocating = true
  · rw [if_pos hmark]
    refine ⟨rfl, ⟨BUFFER_NEEDS_REALLOCATION, rfl⟩, ?_⟩
    show (slotAt (setSlot (setSlot p2 s fun b =>
        { b with mBufferState := b.mBufferState.freeQueued.dequeue }) s fun b =>
        { b with mIsReallocating := false }) s).mBufferProducer =
      (slotAt p2 s).mBufferProducer
    rw [setSlot_field_eq BufferHubSlot.mBufferProducer _ s s
        (fun b => { b with mIsReallocating := false }) (fun b => rfl),
      setSlot_field_eq BufferHubSlot.mBufferProducer p2 s s
        (fun b => { b with mBufferState := b.mBufferState.freeQueued.dequeue })
        (fun b => rfl)]
  · rw [if_neg hmark]
    refine ⟨rfl, ⟨NO_ERROR, rfl⟩, ?_⟩
    show (slotAt (setSlot p2 s fun b =>
        { b with mBufferState := b.mBufferState.freeQueued.dequeue }) s).mBufferProducer =
      (slotAt p2 s).mBufferProducer
    rw [setSlot_field_eq BufferHubSlot.mBufferProducer p2 s s
        (fun b => { b with mBufferState := b.mBufferState.freeQueued.dequeue })
        (fun b => rfl)]

/-- The tail of dequeueBuffer after the lazy-growth step: under the
well-formedness facts for the state entering the retry loop, the combined
loop-and-accept computation fetches at most kMaxQueueCapacity buffers, only
succeeds holding a buffer of the requested geometry, only fails with
NO_MEMORY, and never aborts. -/
theorem dequeueTail_spec (w h fmt usage : Int) (p1 : Producer)
    (k1 : p1.buffers_.length = kMaxQueueCapacity)
    (k2 : p1.pool.Nodup)
    (k3 : ∀ t ∈ p1.pool, t < kMaxQueueCapacity ∧
      (slotAt p1 t).mBufferProducer.isSome = true ∧
      (slotAt p1 t).mBufferState.isDequeued = false)
    (k4 : ∀ t, t < kMaxQueueCapacity →
      (slotAt p1 t).mBufferState.isDequeued = true →
      (slotAt p1 t).mBufferProducer.isSome = true) :
    ∀ r, (match dequeueLoop w h fmt usage kMaxQueueCapacity p1 none with
      | (LoopOut.err e, p2, n) => (DequeueResult.err e, p2, n)
      | (LoopOut.matched s, p2, n) => acceptSlot p2 s n
      | (LoopOut.exhausted none, p2, n) => (DequeueResult.fatal, p2, n)
      | (LoopOut.exhausted (some s), p2, n) => acceptSlot p2 s n) = r →
    r.2.2 ≤ kMaxQueueCapacity ∧
    (∀ s ret f, r.1 = DequeueResult.ok s ret f →
      ∃ bp, (slotAt r.2.1 s).mBufferProducer = some bp ∧
        bp.width = w ∧ bp.height = h ∧ bp.format = fmt) ∧
    (∀ e, r.1 = DequeueResult.err e → e = NO_MEMORY) ∧
    r.1 ≠ DequeueResult.fatal := by
  have hdisj : (capacity p1 = kMaxQueueCapacity ∧
      ∀ s, (none : Option Nat) = some s → GoodSlot w h fmt p1 s) ∨
      p1.pool.length < kMaxQueueCapacity := by
    by_cases hfull : p1.pool.length = kMaxQueueCapacity
    · left
      refine ⟨capacity_eq_of_all_some p1 k1
        (all_some_of_full_pool p1 k2
          (fun t ht => ⟨(k3 t ht).1, (k3 t ht).2.1⟩) hfull), ?_⟩
      intro s hs
      simp at hs
    · right
      exact Nat.lt_of_le_of_ne
        (pool_length_le_kMax p1 k2 (fun t ht => (k3 t ht).1)) hfull
  have hC := dequeueLoop_spec w h fmt usage kMaxQueueCapacity p1 p1.pool []
    none (by simp) k1 (by simpa using k2) k3 (by simp) k4 hdisj
  obtain ⟨c1, c2, c3, c4, c5⟩ := hC
  intro r hr
  rcases hloop : dequeueLoop w h fmt usage kMaxQueueCapacity p1 none
    with ⟨out, p2, n⟩
  rw [hloop] at hr c1 c2 c3 c4 c5
  dsimp only at hr c1 c2 c3 c4 c5
  cases out with
  | err e =>
      subst hr
      refine ⟨c1, ?_, ?_, ?_⟩
      · intro s ret f hok
        simp at hok
      · intro e' he'
        simp only at he'
        obtain rfl := DequeueResult.err.inj he'
        exact c3 e rfl
      · simp
  | matched s =>
      have hg := c4 s rfl
      obtain ⟨hslt', ⟨bp, hbp', hg1, hg2, hg3⟩, hnd'⟩ := hg
      obtain ⟨ha1, ⟨ret0, ha2⟩, ha3⟩ := acceptSlot_spec p2 s n hnd'
      subst hr
      refine ⟨by rw [ha1]; exact c1, ?_, ?_, ?_⟩
      · intro s' ret f hok
        rw [ha2] at hok
        obtain ⟨rfl, -, -⟩ := DequeueResult.ok.inj hok
        rw [ha3]
        exact ⟨bp, hbp', hg1, hg2, hg3⟩
      · intro e' he'
        rw [ha2] at he'
        simp at he'
      · rw [ne_eq, ha2]
        simp
  | exhausted l =>
      cases l with
      | none =>
          have := (c5 none rfl).1 rfl
          exact absurd this.1 (by decide)
      | some s =>
          have hg := (c5 (some s) rfl).2 s rfl
          obtain ⟨hslt', ⟨bp, hbp', hg1, hg2, hg3⟩, hnd'⟩ := hg
          obtain ⟨ha1, ⟨ret0, ha2⟩, ha3⟩ := acceptSlot_spec p2 s n hnd'
          subst hr
          refine ⟨by rw [ha1]; exact c1, ?_, ?_, ?_⟩
          · intro s' ret f hok
            rw [ha2] at hok
            obtain ⟨rfl, -, -⟩ := DequeueResult.ok.inj hok
            rw [ha3]
            exact ⟨bp, hbp', hg1, hg2, hg3⟩
          · intro e' he'
            rw [ha2] at he'
            simp at he'
          · rw [ne_eq, ha2]
            simp

/-- Claim C1: for every dequeue call on a well-formed connected state, the
reallocation retry loop performs at most kMaxQueueCapacity broker fetches,
and the call either succeeds holding a slot whose buffer geometry equals the
request, or fails with NO_MEMORY (broker exhausted or allocation failure);
it never returns success holding a buffer of different geometry and never
trips the fatal slot-state check. -/
theorem claim1_dequeue_geometry_or_oom (p : Producer) (w h fmt usage : Int)
    (hwf : WF p) (hconn : ¬ p.connected_api_ = kNoConnectedApi) :
    (dequeueBuffer p w h fmt usage).2.2 ≤ kMaxQueueCapacity ∧
    (∀ s ret f, (dequeueBuffer p w h fmt usage).1 = DequeueResult.ok s ret f →
      ∃ bp, (slotAt (dequeueBuffer p w h fmt usage).2.1 s).mBufferProducer =
          some bp ∧ bp.width = w ∧ bp.height = h ∧ bp.format = fmt) ∧
    (∀ e, (dequeueBuffer p w h fmt usage).1 = DequeueResult.err e →
      e = NO_MEMORY) ∧
    (dequeueBuffer p w h fmt usage).1 ≠ DequeueResult.fatal := by
  obtain ⟨hlen, hnd, hpl, hI5⟩ := hwf
  rw [dequeueBuffer, if_neg hconn]
  dsimp only
  by_cases hcap : (capacity p : Int) < p.max_dequeued_buffer_count_
  · rw [if_pos hcap]
    cases halloc : allocateBuffer p w h fmt usage with
    | error e =>
        dsimp only
        refine ⟨Nat.zero_le _, ?_, ?_, ?_⟩
        · intro s ret f hok
          simp at hok
        · intro e' he'
          obtain rfl := DequeueResult.err.inj he'
          exact allocateBuffer_error p w h fmt usage e halloc
        · simp
    | ok p1 =>
        dsimp only
        obtain ⟨u, hlf, hp1pool, hp1len, hp1self, hp1ne, -⟩ :=
          allocateBuffer_ok_facts p w h fmt usage p1 halloc
        have hult : u < kMaxQueueCapacity := lowestFree_lt p u hlf
        have hup : u < p.buffers_.length := by rw [hlen]; exact hult
        have hp1selfu := hp1self hup
        have hunone : (slotAt p u).mBufferProducer = none :=
          lowestFree_none_at p u hlf
        have hunotin : u ∉ p.pool := by
          intro hu
          obtain ⟨-, hsome2, -⟩ := hpl u hu
          rw [hunone] at hsome2
          simp at hsome2
        have k1 : p1.buffers_.length = kMaxQueueCapacity := by
          rw [hp1len]; exact hlen
        have k2 : p1.pool.Nodup := by
          rw [hp1pool]
          exact nodup_append_singleton p.pool u hnd hunotin
        have hstate1 : ∀ t, (slotAt p1 t).mBufferState =
            (slotAt p t).mBufferState := by
          intro t
          by_cases ht : t = u
          · subst ht
            rw [hp1selfu]
          · rw [hp1ne t ht]
        have k3 : ∀ t ∈ p1.pool, t < kMaxQueueCapacity ∧
            (slotAt p1 t).mBufferProducer.isSome = true ∧
            (slotAt p1 t).mBufferState.isDequeued = false := by
          intro t ht
          rw [hp1pool] at ht
          rcases List.mem_append.mp ht with h2 | h2
          · have htu : t ≠ u := fun he => hunotin (he ▸ h2)
            obtain ⟨m1, m2, m3⟩ := hpl t h2
            rw [hp1ne t htu]
            exact ⟨m1, m2, m3⟩
          · simp only [List.mem_singleton] at h2
            subst h2
            refine ⟨hult, ?_, ?_⟩
            · rw [hp1selfu]
              rfl
            · rw [hstate1 t]
              by_contra hcon
              simp only [Bool.not_eq_false] at hcon
              have hd := hI5 t hult hcon
              rw [hunone] at hd
              simp at hd
        have k4 : ∀ t, t < kMaxQueueCapacity →
            (slotAt p1 t).mBufferState.isDequeued = true →
            (slotAt p1 t).mBufferProducer.isSome = true := by
          intro t htl htdq
          rw [hstate1 t] at htdq
          by_cases ht : t = u
          · subst ht
            rw [hp1selfu]
            rfl
          · rw [hp1ne t ht]
            exact hI5 t htl htdq
        exact dequeueTail_spec w h fmt usage p1 k1 k2 k3 k4 _ rfl
  · rw [if_neg hcap]
    dsimp only
    exact dequeueTail_spec w h fmt usage p hlen hnd hpl hI5 _ rfl

/-- Witness for C1 on a concrete well-formed state: slot 0 holds a queued
64 by 64 buffer and a 128 by 128 format-1 request is made, forcing a
reallocation before success. -/
theorem claim1_witness :
    (dequeueBuffer exQueued 128 128 1 0).2.2 ≤ kMaxQueueCapacity ∧
    (∀ s ret f, (dequeueBuffer exQueued 128 128 1 0).1 =
        DequeueResult.ok s ret f →
      ∃ bp, (slotAt (dequeueBuffer exQueued 128 128 1 0).2.1 s).mBufferProducer =
          some bp ∧ bp.width = 128 ∧ bp.height = 128 ∧ bp.format = 1) ∧
    (∀ e, (dequeueBuffer exQueued 128 128 1 0).1 = DequeueResult.err e →
      e = NO_MEMORY) ∧
    (dequeueBuffer exQueued 128 128 1 0).1 ≠ DequeueResult.fatal :=
  claim1_dequeue_geometry_or_oom exQueued 128 128 1 0 (by decide) (by decide)

theorem slotAt_eq_of_buffers (p q : Producer) (hbuf : q.buffers_ = p.buffers_)
    (t : Nat) : slotAt q t = slotAt p t := by
  rw [slotAt, slotAt, hbuf]

theorem brokerDequeue_some (p : Producer) (s : Nat) (bp : BufferProducer)
    (p1 : Producer) (hb : brokerDequeue p = some (s, bp, p1)) :
    (slotAt p s).mBufferProducer = some bp ∧ p1.buffers_ = p.buffers_ := by
  rcases hpool : p.pool with _ | ⟨s0, rest⟩
  · rw [brokerDequeue, hpool] at hb
    simp at hb
  · rw [brokerDequeue, hpool] at hb
    dsimp only at hb
    rcases hbp0 : (slotAt p s0).mBufferProducer with _ | bp0 <;> rw [hbp0] at hb
    · simp at hb
    · simp only [Option.some.injEq, Prod.mk.injEq] at hb
      obtain ⟨rfl, rfl, hb3⟩ := hb
      exact ⟨hbp0, by rw [← hb3]⟩

theorem allocateBuffer_preserves_marker (p : Producer) (w h fmt usage : Int)
    (p4 : Producer) (halloc : allocateBuffer p w h fmt usage = Except.ok p4)
    (t : Nat) :
    (slotAt p4 t).mIsReallocating = (slotAt p t).mIsReallocating := by
  rw [allocateBuffer] at halloc
  split_ifs at halloc with h1
  rcases hlf : lowestFree p with _ | u <;> rw [hlf] at halloc
  · simp at halloc
  · obtain hp4 := (Except.ok.inj halloc).symm
    subst hp4
    exact setSlot_field_eq BufferHubSlot.mIsReallocating p u t
      (fun b => { b with mBufferProducer := some ⟨w, h, fmt, usage, w⟩ })
      (fun b => rfl)

theorem allocateBuffer_preserves_someProducer (p : Producer)
    (w h fmt usage : Int) (p4 : Producer)
    (halloc : allocateBuffer p w h fmt usage = Except.ok p4)
    (t : Nat) (bp : BufferProducer)
    (hbp : (slotAt p t).mBufferProducer = some bp) :
    (slotAt p4 t).mBufferProducer = some bp := by
  rw [allocateBuffer] at halloc
  split_ifs at halloc with h1
  rcases hlf : lowestFree p with _ | u <;> rw [hlf] at halloc
  · simp at halloc
  · obtain hp4 := (Except.ok.inj halloc).symm
    subst hp4
    have htu : t ≠ u := by
      intro he
      rw [he, lowestFree_none_at p u hlf] at hbp
      simp at hbp
    have := slotAt_setSlot_ne p u t
      (fun b => { b with mBufferProducer := some ⟨w, h, fmt, usage, w⟩ }) htu
    show (slotAt (setSlot p u fun b =>
      { b with mBufferProducer := some ⟨w, h, fmt, usage, w⟩ }) t).mBufferProducer = some bp
    rw [this]
    exact hbp

theorem detachBuffer_preserves_marker (p : Producer) (s t : Nat) :
    (slotAt (detachBuffer p s) t).mIsReallocating =
      (slotAt p t).mIsReallocating := by
  rw [slotAt_detachBuffer]
  exact setSlot_field_eq BufferHubSlot.mIsReallocating p s t
    (fun b => { b with
      mBufferProducer := none
      mGraphicBuffer := none
      mRequestBufferCalled := false })
    (fun b => rfl)

theorem setSlot_mark_marker_true (p : Producer) (s t : Nat)
    (ht : (slotAt p t).mIsReallocating = true) :
    (slotAt (setSlot p s fun b => { b with mIsReallocating := true })
      t).mIsReallocating = true := by
  rw [slotAt_setSlot]
  split_ifs with hc
  · rfl
  · exact ht

theorem setSlot_mark_self_true (p : Producer) (s : Nat)
    (hs : s < p.buffers_.length) :
    (slotAt (setSlot p s fun b => { b with mIsReallocating := true })
      s).mIsReallocating = true := by
  rw [slotAt_setSlot_self p s (fun b => { b with mIsReallocating := true }) hs]

/-- One unfolding of the retry loop, split into its four possible shapes:
broker empty, geometry match, mismatch with failed replacement allocation,
and mismatch with successful reallocation followed by the recursive call. -/
theorem dequeueLoop_step (w h fmt usage : Int) (fuel : Nat) (p : Producer)
    (last : Option Nat) :
    (brokerDequeue p = none ∧
      dequeueLoop w h fmt usage (fuel + 1) p last =
        (LoopOut.err NO_MEMORY, p, 1)) ∨
    (∃ s bp p1, brokerDequeue p = some (s, bp, p1) ∧
      (bp.width = w ∧ bp.height = h ∧ bp.format = fmt) ∧
      dequeueLoop w h fmt usage (fuel + 1) p last =
        (LoopOut.matched s, p1, 1)) ∨
    (∃ s bp p1 e, brokerDequeue p = some (s, bp, p1) ∧
      ¬(bp.width = w ∧ bp.height = h ∧ bp.format = fmt) ∧
      allocateBuffer (detachBuffer (setSlot p1 s fun b => { b with mIsReallocating := true }) s) w h fmt usage = Except.error e ∧
      dequeueLoop w h fmt usage (fuel + 1) p last =
        (LoopOut.err e, (detachBuffer (setSlot p1 s fun b => { b with mIsReallocating := true }) s), 1)) ∨
    (∃ s bp p1 p4, brokerDequeue p = some (s, bp, p1) ∧
      ¬(bp.width = w ∧ bp.height = h ∧ bp.format = fmt) ∧
      allocateBuffer (detachBuffer (setSlot p1 s fun b => { b with mIsReallocating := true }) s) w h fmt usage = Except.ok p4 ∧
      dequeueLoop w h fmt usage (fuel + 1) p last =
        ((dequeueLoop w h fmt usage fuel p4 (some s)).1,
         (dequeueLoop w h fmt usage fuel p4 (some s)).2.1,
         (dequeueLoop w h fmt usage fuel p4 (some s)).2.2 + 1)) := by
  rcases hbd : brokerDequeue p with _ | ⟨s, bp, p1⟩
  · left
    exact ⟨rfl, by rw [dequeueLoop, hbd]⟩
  · by_cases hm : bp.width = w ∧ bp.height = h ∧ bp.format = fmt
    · right; left
      refine ⟨s, bp, p1, rfl, hm, ?_⟩
      rw [dequeueLoop, hbd]
      dsimp only
      rw [if_pos hm]
    · cases halloc : allocateBuffer (detachBuffer (setSlot p1 s fun b => { b with mIsReallocating := true }) s) w h fmt usage with
      | error e =>
          right; right; left
          refine ⟨s, bp, p1, e, rfl, hm, halloc, ?_⟩
          rw [dequeueLoop, hbd]
          dsimp only
          rw [if_neg hm, halloc]
      | ok p4 =>
          right; right; right
          refine ⟨s, bp, p1, p4, rfl, hm, halloc, ?_⟩
          rw [dequeueLoop, hbd]
          dsimp only
          rw [if_neg hm, halloc]

/-- The retry loop never clears a reallocation marker: a marked slot stays
marked in the loop's final state. -/
theorem dequeueLoop_marker_mono (w h fmt usage : Int) :
    ∀ (fuel : Nat) (p : Producer) (last : Option Nat) (t : Nat),
    (slotAt p t).mIsReallocating = true →
    (slotAt (dequeueLoop w h fmt usage fuel p last).2.1 t).mIsReallocating =
      true := by
  intro fuel
  induction fuel with
  | zero => intro p last t ht; exact ht
  | succ fuel ih =>
      intro p last t ht
      rcases dequeueLoop_step w h fmt usage fuel p last with
        ⟨-, heq⟩ | ⟨s, bp, p1, hbd, -, heq⟩ | ⟨s, bp, p1, e, hbd, -, -, heq⟩ |
        ⟨s, bp, p1, p4, hbd, -, halloc, heq⟩ <;> rw [heq]
      · exact ht
      · obtain ⟨-, hbuf⟩ := brokerDequeue_some p s bp p1 hbd
        show (slotAt p1 t).mIsReallocating = true
        rw [slotAt_eq_of_buffers p p1 hbuf]
        exact ht
      · obtain ⟨-, hbuf⟩ := brokerDequeue_some p s bp p1 hbd
        have ht1 : (slotAt p1 t).mIsReallocating = true := by
          rw [slotAt_eq_of_buffers p p1 hbuf]
          exact ht
        show (slotAt (detachBuffer (setSlot p1 s fun b => { b with mIsReallocating := true }) s) t).mIsReallocating = true
        rw [detachBuffer_preserves_marker]
        exact setSlot_mark_marker_true p1 s t ht1
      · obtain ⟨-, hbuf⟩ := brokerDequeue_some p s bp p1 hbd
        have ht1 : (slotAt p1 t).mIsReallocating = true := by
          rw [slotAt_eq_of_buffers p p1 hbuf]
          exact ht
        have ht3 : (slotAt (detachBuffer (setSlot p1 s fun b => { b with mIsReallocating := true }) s) t).mIsReallocating = true := by
          rw [detachBuffer_preserves_marker]
          exact setSlot_mark_marker_true p1 s t ht1
        have ht4 : (slotAt p4 t).mIsReallocating = true := by
          rw [allocateBuffer_preserves_marker (detachBuffer (setSlot p1 s fun b => { b with mIsReallocating := true }) s) w h fmt usage p4 halloc t]
          exact ht3
        exact ih p4 (some s) t ht4

/-- When the retry loop runs out of fuel, the slot it carries out was marked
as reallocating during the loop (or was handed in marked). -/
theorem dequeueLoop_exhausted_marker (w h fmt usage : Int) :
    ∀ (fuel : Nat) (p : Producer) (last : Option Nat),
    (∀ s0, last = some s0 → (slotAt p s0).mIsReallocating = true) →
    ∀ l t, (dequeueLoop w h fmt usage fuel p last).1 = LoopOut.exhausted l →
    l = some t →
    (slotAt (dequeueLoop w h fmt usage fuel p last).2.1 t).mIsReallocating =
      true := by
  intro fuel
  induction fuel with
  | zero =>
      intro p last hlast l t hl hlt
      have : last = l := LoopOut.exhausted.inj hl
      exact hlast t (by rw [this, hlt])
  | succ fuel ih =>
      intro p last hlast l t hl hlt
      rcases dequeueLoop_step w h fmt usage fuel p last with
        ⟨-, heq⟩ | ⟨s, bp, p1, hbd, -, heq⟩ | ⟨s, bp, p1, e, hbd, -, -, heq⟩ |
        ⟨s, bp, p1, p4, hbd, -, halloc, heq⟩
      · rw [heq] at hl
        simp at hl
      · rw [heq] at hl
        simp at hl
      · rw [heq] at hl
        simp at hl
      · rw [heq] at hl ⊢
        obtain ⟨hbp, hbuf⟩ := brokerDequeue_some p s bp p1 hbd
        have hslen : s < p1.buffers_.length := by
          rw [hbuf]
          exact lt_length_of_some_producer p s (by rw [hbp]; rfl)
        have hm2 : (slotAt (setSlot p1 s fun b =>
            { b with mIsReallocating := true }) s).mIsReallocating = true :=
          setSlot_mark_self_true p1 s hslen
        have hm3 : (slotAt (detachBuffer (setSlot p1 s fun b => { b with mIsReallocating := true }) s) s).mIsReallocating = true := by
          rw [detachBuffer_preserves_marker]
          exact hm2
        have hm4 : ∀ s0, (some s : Option Nat) = some s0 →
            (slotAt p4 s0).mIsReallocating = true := by
          intro s0 hs0
          have hs0e : s0 = s := (Option.some.inj hs0).symm
          rw [hs0e, allocateBuffer_preserves_marker (detachBuffer (setSlot p1 s fun b => { b with mIsReallocating := true }) s) w h fmt usage p4 halloc s]
          exact hm3
        exact ih p4 (some s) hm4 l t hl hlt

/-- If a slot enters the retry loop unmarked and leaves unmarked, its buffer
is untouched by the loop. -/
theorem dequeueLoop_producer_stable (w h fmt usage : Int) :
    ∀ (fuel : Nat) (p : Producer) (last : Option Nat) (t : Nat)
      (bp0 : BufferProducer),
    (slotAt p t).mIsReallocating = false →
    (slotAt p t).mBufferProducer = some bp0 →
    (slotAt (dequeueLoop w h fmt usage fuel p last).2.1 t).mIsReallocating =
      false →
    (slotAt (dequeueLoop w h fmt usage fuel p last).2.1 t).mBufferProducer =
      some bp0 := by
  intro fuel
  induction fuel with
  | zero => intro p last t bp0 hmk hbp hmk2; exact hbp
  | succ fuel ih =>
      intro p last t bp0 hmk hbp hmk2
      rcases dequeueLoop_step w h fmt usage fuel p last with
        ⟨-, heq⟩ | ⟨s, bp, p1, hbd, -, heq⟩ | ⟨s, bp, p1, e, hbd, -, -, heq⟩ |
        ⟨s, bp, p1, p4, hbd, -, halloc, heq⟩
      · rw [heq]
        exact hbp
      · rw [heq]
        obtain ⟨-, hbuf⟩ := brokerDequeue_some p s bp p1 hbd
        show (slotAt p1 t).mBufferProducer = some bp0
        rw [slotAt_eq_of_buffers p p1 hbuf]
        exact hbp
      · -- the slot detached here cannot be t: t would end up marked
        rw [heq] at hmk2 ⊢
        obtain ⟨hbp1, hbuf⟩ := brokerDequeue_some p s bp p1 hbd
        have hts : t ≠ s := by
          intro he
          subst he
          have hslen : t < p1.buffers_.length := by
            rw [hbuf]
            exact lt_length_of_some_producer p t (by rw [hbp1]; rfl)
          have := setSlot_mark_self_true p1 t hslen
          rw [show (slotAt (detachBuffer (setSlot p1 t fun b => { b with mIsReallocating := true }) t) t).mIsReallocating = true from by
            rw [detachBuffer_preserves_marker]; exact this] at hmk2
          exact absurd hmk2 (by simp)
        rw [slotAt_detachBuffer,
          slotAt_setSlot_ne _ s t _ hts,
          slotAt_setSlot_ne p1 s t _ hts,
          slotAt_eq_of_buffers p p1 hbuf]
        exact hbp
      · rw [heq] at hmk2 ⊢
        obtain ⟨hbp1, hbuf⟩ := brokerDequeue_some p s bp p1 hbd
        have hts : t ≠ s := by
          intro he
          subst he
          have hslen : t < p1.buffers_.length := by
            rw [hbuf]
            exact lt_length_of_some_producer p t (by rw [hbp1]; rfl)
          have hm2 := setSlot_mark_self_true p1 t hslen
          have hm3 : (slotAt (detachBuffer (setSlot p1 t fun b => { b with mIsReallocating := true }) t) t).mIsReallocating = true := by
            rw [detachBuffer_preserves_marker]
            exact hm2
          have hm4 : (slotAt p4 t).mIsReallocating = true := by
            rw [allocateBuffer_preserves_marker (detachBuffer (setSlot p1 t fun b => { b with mIsReallocating := true }) t) w h fmt usage p4 halloc t]
            exact hm3
          have := dequeueLoop_marker_mono w h fmt usage fuel p4 (some t) t hm4
          rw [this] at hmk2
          exact absurd hmk2 (by simp)
        have hp3t : slotAt (detachBuffer (setSlot p1 s fun b => { b with mIsReallocating := true }) s) t = slotAt p t := by
          rw [slotAt_detachBuffer,
            slotAt_setSlot_ne _ s t _ hts,
            slotAt_setSlot_ne p1 s t _ hts,
            slotAt_eq_of_buffers p p1 hbuf]
        have hmk3 : (slotAt (detachBuffer (setSlot p1 s fun b => { b with mIsReallocating := true }) s) t).mIsReallocating = false := by
          rw [hp3t]
          exact hmk
        have hbp3 : (slotAt (detachBuffer (setSlot p1 s fun b => { b with mIsReallocating := true }) s) t).mBufferProducer = some bp0 := by
          rw [hp3t]
          exact hbp
        have hmk4 : (slotAt p4 t).mIsReallocating = false := by
          rw [allocateBuffer_preserves_marker (detachBuffer (setSlot p1 s fun b => { b with mIsReallocating := true }) s) w h fmt usage p4 halloc t]
          exact hmk3
        have hbp4 : (slotAt p4 t).mBufferProducer = some bp0 :=
          allocateBuffer_preserves_someProducer (detachBuffer (setSlot p1 s fun b => { b with mIsReallocating := true }) s) w h fmt usage p4 halloc
            t bp0 hbp3
        exact ih p4 (some s) t bp0 hmk4 hbp4 hmk2

/-- A matched loop outcome always leaves a buffer of the requested geometry
in the matched slot. -/
theorem dequeueLoop_matched_geom (w h fmt usage : Int) :
    ∀ (fuel : Nat) (p : Producer) (last : Option Nat) (s0 : Nat),
    (dequeueLoop w h fmt usage fuel p last).1 = LoopOut.matched s0 →
    ∃ bp, (slotAt (dequeueLoop w h fmt usage fuel p last).2.1
        s0).mBufferProducer = some bp ∧
      bp.width = w ∧ bp.height = h ∧ bp.format = fmt := by
  intro fuel
  induction fuel with
  | zero =>
      intro p last s0 hmt
      simp [dequeueLoop] at hmt
  | succ fuel ih =>
      intro p last s0 hmt
      rcases dequeueLoop_step w h fmt usage fuel p last with
        ⟨-, heq⟩ | ⟨s, bp, p1, hbd, hg, heq⟩ | ⟨s, bp, p1, e, hbd, -, -, heq⟩ |
        ⟨s, bp, p1, p4, hbd, -, halloc, heq⟩
      · rw [heq] at hmt
        simp at hmt
      · rw [heq] at hmt ⊢
        simp only at hmt
        obtain rfl := LoopOut.matched.inj hmt
        obtain ⟨hbp1, hbuf⟩ := brokerDequeue_some p s bp p1 hbd
        refine ⟨bp, ?_, hg.1, hg.2.1, hg.2.2⟩
        show (slotAt p1 s).mBufferProducer = some bp
        rw [slotAt_eq_of_buffers p p1 hbuf]
        exact hbp1
      · rw [heq] at hmt
        simp at hmt
      · rw [heq] at hmt ⊢
        exact ih p4 (some s) s0 hmt

theorem marker_after_clear (q : Producer) (s : Nat) :
    (slotAt (setSlot q s fun b => { b with mIsReallocating := false })
      s).mIsReallocating = false := by
  rw [slotAt_setSlot]
  split_ifs with hc
  · rfl
  · push_neg at hc
    have hle : q.buffers_.length ≤ s := hc rfl
    show (q.buffers_.getD s initialSlot).mIsReallocating = false
    rw [List.getD_eq_default _ _ hle]
    rfl

/-- Full characterization of a successful acceptSlot run: the returned slot
and count are the ones passed in, the fence is the no-op fence, the marker is
cleared in the final state, and the status is the reallocation flag exactly
when the marker was set at acceptance. -/
theorem acceptSlot_cases (p2 : Producer) (s n : Nat) (s' : Nat) (ret : Int)
    (f : Fence) (p' : Producer) (n' : Nat)
    (h : acceptSlot p2 s n = (DequeueResult.ok s' ret f, p', n')) :
    s' = s ∧ n' = n ∧ f = noFence ∧
    (slotAt p' s).mIsReallocating = false ∧
    ret = (if (slotAt p2 s).mIsReallocating = true then
      BUFFER_NEEDS_REALLOCATION else NO_ERROR) := by
  have hmeq : (slotAt (setSlot p2 s fun b =>
      { b with mBufferState := b.mBufferState.freeQueued.dequeue })
      s).mIsReallocating = (slotAt p2 s).mIsReallocating :=
    setSlot_field_eq BufferHubSlot.mIsReallocating p2 s s
      (fun b => { b with mBufferState := b.mBufferState.freeQueued.dequeue })
      (fun b => rfl)
  rw [acceptSlot] at h
  dsimp only at h
  split_ifs at h with hfat hmark
  · simp at h
  · simp only [Prod.mk.injEq, DequeueResult.ok.injEq] at h
    obtain ⟨⟨hs, hret, hf⟩, hp, hn⟩ := h
    refine ⟨hs.symm, hn.symm, hf.symm, ?_, ?_⟩
    · rw [← hp]
      exact marker_after_clear _ s
    · rw [← hret, if_pos (by rw [← hmeq]; exact hmark)]
  · simp only [Prod.mk.injEq, DequeueResult.ok.injEq] at h
    obtain ⟨⟨hs, hret, hf⟩, hp, hn⟩ := h
    refine ⟨hs.symm, hn.symm, hf.symm, ?_, ?_⟩
    · rw [← hp]
      simpa using hmark
    · rw [← hret, if_neg (by rw [← hmeq]; exact hmark)]

/-- Every outcome of the retry loop performs at least one broker fetch when
it matches, and exhaustion consumes the whole fuel. -/
theorem dequeueLoop_matched_count_pos (w h fmt usage : Int) :
    ∀ (fuel : Nat) (p : Producer) (last : Option Nat) (s0 : Nat),
    (dequeueLoop w h fmt usage fuel p last).1 = LoopOut.matched s0 →
    1 ≤ (dequeueLoop w h fmt usage fuel p last).2.2 := by
  intro fuel
  induction fuel with
  | zero =>
      intro p last s0 hmt
      simp [dequeueLoop] at hmt
  | succ fuel ih =>
      intro p last s0 hmt
      rcases dequeueLoop_step w h fmt usage fuel p last with
        ⟨-, heq⟩ | ⟨s, bp, p1, -, -, heq⟩ | ⟨s, bp, p1, e, -, -, -, heq⟩ |
        ⟨s, bp, p1, p4, -, -, -, heq⟩ <;> rw [heq] at hmt ⊢ <;>
        (dsimp only; omega)

theorem dequeueLoop_exhausted_count (w h fmt usage : Int) :
    ∀ (fuel : Nat) (p : Producer) (last : Option Nat) (l : Option Nat),
    (dequeueLoop w h fmt usage fuel p last).1 = LoopOut.exhausted l →
    (dequeueLoop w h fmt usage fuel p last).2.2 = fuel := by
  intro fuel
  induction fuel with
  | zero => intro p last l hx; rfl
  | succ fuel ih =>
      intro p last l hx
      rcases dequeueLoop_step w h fmt usage fuel p last with
        ⟨-, heq⟩ | ⟨s, bp, p1, -, -, heq⟩ | ⟨s, bp, p1, e, -, -, -, heq⟩ |
        ⟨s, bp, p1, p4, -, -, -, heq⟩ <;> rw [heq] at hx ⊢
      · simp at hx
      · simp at hx
      · simp at hx
      · simp only
        rw [ih p4 (some s) l hx]

/-- A loop that matches on its very first fetch leaves the slot table
untouched. -/
theorem dequeueLoop_matched_one (w h fmt usage : Int) :
    ∀ (fuel : Nat) (p : Producer) (last : Option Nat) (s0 : Nat),
    (dequeueLoop w h fmt usage fuel p last).1 = LoopOut.matched s0 →
    (dequeueLoop w h fmt usage fuel p last).2.2 = 1 →
    (dequeueLoop w h fmt usage fuel p last).2.1.buffers_ = p.buffers_ := by
  intro fuel
  induction fuel with
  | zero =>
      intro p last s0 hmt
      simp [dequeueLoop] at hmt
  | succ fuel ih =>
      intro p last s0 hmt hn
      rcases dequeueLoop_step w h fmt usage fuel p last with
        ⟨-, heq⟩ | ⟨s, bp, p1, hbd, -, heq⟩ | ⟨s, bp, p1, e, -, -, -, heq⟩ |
        ⟨s, bp, p1, p4, -, -, -, heq⟩ <;> rw [heq] at hmt hn ⊢
      · exact (brokerDequeue_some p s bp p1 hbd).2
      · simp at hmt
      · exfalso
        simp only at hmt hn
        have hpos := dequeueLoop_matched_count_pos w h fmt usage fuel p4
          (some s) s0 hmt
        omega

/-- Decomposition of the tail of a successful dequeueBuffer: the loop ended
on the returned slot via a match or exhaustion, and acceptSlot produced the
result with the loop's fetch count. -/
theorem dequeueTail_ok_decomp (w h fmt usage : Int) (p1 : Producer)
    (s : Nat) (ret : Int) (f : Fence) (p' : Producer) (n : Nat)
    (hd : (match dequeueLoop w h fmt usage kMaxQueueCapacity p1 none with
      | (LoopOut.err e, p2, n2) => (DequeueResult.err e, p2, n2)
      | (LoopOut.matched s2, p2, n2) => acceptSlot p2 s2 n2
      | (LoopOut.exhausted none, p2, n2) => (DequeueResult.fatal, p2, n2)
      | (LoopOut.exhausted (some s2), p2, n2) => acceptSlot p2 s2 n2) =
      (DequeueResult.ok s ret f, p', n)) :
    ((dequeueLoop w h fmt usage kMaxQueueCapacity p1 none).1 =
        LoopOut.matched s ∨
     (dequeueLoop w h fmt usage kMaxQueueCapacity p1 none).1 =
        LoopOut.exhausted (some s)) ∧
    acceptSlot (dequeueLoop w h fmt usage kMaxQueueCapacity p1 none).2.1 s
      (dequeueLoop w h fmt usage kMaxQueueCapacity p1 none).2.2 =
      (DequeueResult.ok s ret f, p', n) ∧
    (dequeueLoop w h fmt usage kMaxQueueCapacity p1 none).2.2 = n := by
  rcases hloop : dequeueLoop w h fmt usage kMaxQueueCapacity p1 none
    with ⟨out, p2, n2⟩
  rw [hloop] at hd
  cases out with
  | err e =>
      dsimp only at hd
      simp at hd
  | matched s2 =>
      dsimp only at hd ⊢
      obtain ⟨hs2, hn2, -, -, -⟩ := acceptSlot_cases p2 s2 n2 s ret f p' n hd
      subst hs2
      exact ⟨Or.inl rfl, hd, hn2.symm⟩
  | exhausted l =>
      cases l with
      | none =>
          dsimp only at hd
          simp at hd
      | some s2 =>
          dsimp only at hd ⊢
          obtain ⟨hs2, hn2, -, -, -⟩ := acceptSlot_cases p2 s2 n2 s ret f p' n hd
          subst hs2
          exact ⟨Or.inr rfl, hd, hn2.symm⟩

/-- Decomposition of a successful dequeueBuffer run into its lazy-allocation
step, its loop outcome and its acceptance step. -/
theorem dequeueBuffer_ok_decomp (p : Producer) (w h fmt usage : Int)
    (s : Nat) (ret : Int) (f : Fence) (p' : Producer) (n : Nat)
    (hd : dequeueBuffer p w h fmt usage = (DequeueResult.ok s ret f, p', n)) :
    ∃ p1, (p1 = p ∨ allocateBuffer p w h fmt usage = Except.ok p1) ∧
      ((dequeueLoop w h fmt usage kMaxQueueCapacity p1 none).1 =
          LoopOut.matched s ∨
       (dequeueLoop w h fmt usage kMaxQueueCapacity p1 none).1 =
          LoopOut.exhausted (some s)) ∧
      acceptSlot (dequeueLoop w h fmt usage kMaxQueueCapacity p1 none).2.1 s
        (dequeueLoop w h fmt usage kMaxQueueCapacity p1 none).2.2 =
        (DequeueResult.ok s ret f, p', n) ∧
      (dequeueLoop w h fmt usage kMaxQueueCapacity p1 none).2.2 = n := by
  rw [dequeueBuffer] at hd
  split_ifs at hd with hconn hcap
  · simp at hd
  · cases halloc : allocateBuffer p w h fmt usage with
    | error e =>
        rw [halloc] at hd
        dsimp only at hd
        simp at hd
    | ok p1 =>
        rw [halloc] at hd
        dsimp only at hd
        exact ⟨p1, Or.inr rfl,
          dequeueTail_ok_decomp w h fmt usage p1 s ret f p' n hd⟩
  · dsimp only at hd
    exact ⟨p, Or.inl rfl,
      dequeueTail_ok_decomp w h fmt usage p s ret f p' n hd⟩

/-- Claim C7: a successful dequeue always returns the no-op fence and leaves
the returned slot with its needs-reallocation marker cleared, reporting
either NO_ERROR or BUFFER_NEEDS_REALLOCATION; a dequeue that matches the
pooled buffer on its first fetch with the slot unmarked reports NO_ERROR,
while a dequeue that had to reallocate the returned slot (unmarked slot
whose buffer mismatches the requested geometry) reports
BUFFER_NEEDS_REALLOCATION; concretely, reallocating slot 0 reports the flag
once and clears the marker, and re-dequeuing the same slot with the same
geometry reports NO_ERROR. -/
theorem claim7_realloc_flag_once :
    (∀ p (w h fmt usage : Int) s (ret : Int) f p' n,
      dequeueBuffer p w h fmt usage = (DequeueResult.ok s ret f, p', n) →
      f = noFence ∧ (slotAt p' s).mIsReallocating = false ∧
        (ret = NO_ERROR ∨ ret = BUFFER_NEEDS_REALLOCATION)) ∧
    (∀ p (w h fmt usage : Int) s (ret : Int) f p' n,
      dequeueBuffer p w h fmt usage = (DequeueResult.ok s ret f, p', n) →
      (slotAt p s).mIsReallocating = false → n = 1 →
      ret = NO_ERROR) ∧
    (∀ p (w h fmt usage : Int) s (ret : Int) f p' n bp0,
      dequeueBuffer p w h fmt usage = (DequeueResult.ok s ret f, p', n) →
      (slotAt p s).mIsReallocating = false →
      (slotAt p s).mBufferProducer = some bp0 →
      ¬ (bp0.width = w ∧ bp0.height = h ∧ bp0.format = fmt) →
      ret = BUFFER_NEEDS_REALLOCATION) ∧
    (c7b.1 = DequeueResult.ok 0 BUFFER_NEEDS_REALLOCATION noFence ∧
     (slotAt c7b.2.1 0).mIsReallocating = false ∧
     c7d.1 = DequeueResult.ok 0 NO_ERROR noFence) := by
  refine ⟨?_, ?_, ?_, by decide⟩
  · intro p w h fmt usage s ret f p' n hd
    obtain ⟨p1, -, -, hacc, -⟩ :=
      dequeueBuffer_ok_decomp p w h fmt usage s ret f p' n hd
    obtain ⟨-, -, hf, hclear, hret⟩ := acceptSlot_cases
      (dequeueLoop w h fmt usage kMaxQueueCapacity p1 none).2.1 s
      (dequeueLoop w h fmt usage kMaxQueueCapacity p1 none).2.2
      s ret f p' n hacc
    refine ⟨hf, hclear, ?_⟩
    rw [hret]
    split_ifs
    · exact Or.inr rfl
    · exact Or.inl rfl
  · intro p w h fmt usage s ret f p' n hd hm0 hn1
    obtain ⟨p1, hp1, hout, hacc, hcnt⟩ :=
      dequeueBuffer_ok_decomp p w h fmt usage s ret f p' n hd
    have hm1 : (slotAt p1 s).mIsReallocating = false := by
      rcases hp1 with rfl | halloc
      · exact hm0
      · rw [allocateBuffer_preserves_marker p w h fmt usage p1 halloc s]
        exact hm0
    have hcnt1 :
        (dequeueLoop w h fmt usage kMaxQueueCapacity p1 none).2.2 = 1 := by
      rw [hcnt, hn1]
    rcases hout with hmt | hex
    · have hbuf := dequeueLoop_matched_one w h fmt usage kMaxQueueCapacity
        p1 none s hmt hcnt1
      obtain ⟨-, -, -, -, hret⟩ := acceptSlot_cases
        (dequeueLoop w h fmt usage kMaxQueueCapacity p1 none).2.1 s
        (dequeueLoop w h fmt usage kMaxQueueCapacity p1 none).2.2
        s ret f p' n hacc
      have hsl := slotAt_eq_of_buffers p1
        (dequeueLoop w h fmt usage kMaxQueueCapacity p1 none).2.1 hbuf s
      rw [hret, if_neg ?hneg]
      case hneg =>
        intro hc
        rw [hsl, hm1] at hc
        exact Bool.false_ne_true hc
    · have hc := dequeueLoop_exhausted_count w h fmt usage kMaxQueueCapacity
        p1 none (some s) hex
      rw [hcnt1] at hc
      exact absurd hc (by decide)
  · intro p w h fmt usage s ret f p' n bp0 hd hm0 hbp0 hmm
    obtain ⟨p1, hp1, hout, hacc, -⟩ :=
      dequeueBuffer_ok_decomp p w h fmt usage s ret f p' n hd
    have hm1 : (slotAt p1 s).mIsReallocating = false := by
      rcases hp1 with rfl | halloc
      · exact hm0
      · rw [allocateBuffer_preserves_marker p w h fmt usage p1 halloc s]
        exact hm0
    have hbp1 : (slotAt p1 s).mBufferProducer = some bp0 := by
      rcases hp1 with rfl | halloc
      · exact hbp0
      · exact allocateBuffer_preserves_someProducer p w h fmt usage p1
          halloc s bp0 hbp0
    have hmk : (slotAt (dequeueLoop w h fmt usage kMaxQueueCapacity p1
        none).2.1 s).mIsReallocating = true := by
      rcases hout with hmt | hex
      · by_contra hmf
        rw [Bool.not_eq_true] at hmf
        have hstable := dequeueLoop_producer_stable w h fmt usage
          kMaxQueueCapacity p1 none s bp0 hm1 hbp1 hmf
        obtain ⟨bp, hbp, hw, hh, hfm⟩ := dequeueLoop_matched_geom w h fmt
          usage kMaxQueueCapacity p1 none s hmt
        rw [hstable] at hbp
        obtain rfl := Option.some.inj hbp
        exact hmm ⟨hw, hh, hfm⟩
      · exact dequeueLoop_exhausted_marker w h fmt usage kMaxQueueCapacity
          p1 none (fun s0 h0 => by simp at h0) (some s) s hex rfl
    obtain ⟨-, -, -, -, hret⟩ := acceptSlot_cases
      (dequeueLoop w h fmt usage kMaxQueueCapacity p1 none).2.1 s
      (dequeueLoop w h fmt usage kMaxQueueCapacity p1 none).2.2
      s ret f p' n hacc
    rw [hret, if_pos hmk]

/-- Witness for claim C7: the three universally quantified parts applied to
the concrete reallocation scenario on slot 0. -/
theorem claim7_witness :
    ((noFence : Fence) = noFence ∧ (slotAt c7b.2.1 0).mIsReallocating = false ∧
      ((BUFFER_NEEDS_REALLOCATION : Int) = NO_ERROR ∨
       (BUFFER_NEEDS_REALLOCATION : Int) = BUFFER_NEEDS_REALLOCATION)) ∧
    (NO_ERROR : Int) = NO_ERROR ∧
    (BUFFER_NEEDS_REALLOCATION : Int) = BUFFER_NEEDS_REALLOCATION := by
  refine ⟨?_, ?_, ?_⟩
  · exact claim7_realloc_flag_once.1 c7a 128 128 1 0 0
      BUFFER_NEEDS_REALLOCATION noFence c7b.2.1 c7b.2.2 (by decide)
  · exact claim7_realloc_flag_once.2.1 c7c 128 128 1 0 0 NO_ERROR noFence
      c7d.2.1 c7d.2.2 (by decide) (by decide) (by decide)
  · exact claim7_realloc_flag_once.2.2.1 c7a 128 128 1 0 0
      BUFFER_NEEDS_REALLOCATION noFence c7b.2.1 c7b.2.2 ⟨64, 64, 1, 0, 64⟩
      (by decide) (by decide) (by decide) (by decide)

/-- Claim C10: when allocation fails inside the reallocation retry loop,
dequeueBuffer returns the allocation error without rolling back: the
mismatched slot stays marked as needing reallocation, its buffer and derived
fields stay detached, and the slot is no longer in the broker pool. -/
theorem claim10_alloc_fail_no_rollback (p : Producer) (w h fmt usage : Int)
    (s : Nat) (rest : List Nat) (bp : BufferProducer)
    (hconn : ¬ p.connected_api_ = kNoConnectedApi)
    (hcap : ¬ ((capacity p : Int) < p.max_dequeued_buffer_count_))
    (hpool : p.pool = s :: rest)
    (hbp : (slotAt p s).mBufferProducer = some bp)
    (hmm : ¬ (bp.width = w ∧ bp.height = h ∧ bp.format = fmt))
    (hbudget : p.allocBudget = 0) :
    ∃ p', dequeueBuffer p w h fmt usage = (DequeueResult.err NO_MEMORY, p', 1) ∧
      (slotAt p' s).mIsReallocating = true ∧
      (slotAt p' s).mBufferProducer = none ∧
      (slotAt p' s).mGraphicBuffer = none ∧
      (slotAt p' s).mRequestBufferCalled = false ∧
      s ∉ p'.pool := by
  have hlt : s < p.buffers_.length :=
    lt_length_of_some_producer p s (by rw [hbp]; rfl)
  have e64 : kMaxQueueCapacity = 63 + 1 := rfl
  have hq : slotAt (setSlot { p with pool := rest } s fun b =>
      { b with mIsReallocating := true }) s =
      { slotAt p s with mIsReallocating := true } :=
    slotAt_setSlot_self _ _ _ hlt
  have hslot : slotAt (detachBuffer (setSlot { p with pool := rest } s fun b =>
      { b with mIsReallocating := true }) s) s =
      { slotAt p s with
        mIsReallocating := true
        mBufferProducer := none
        mGraphicBuffer := none
        mRequestBufferCalled := false } := by
    rw [slotAt_detachBuffer,
      slotAt_setSlot_self _ _ _ (by simpa [length_setSlot] using hlt), hq]
  refine ⟨detachBuffer (setSlot { p with pool := rest } s fun b =>
    { b with mIsReallocating := true }) s, ?_, ?_, ?_, ?_, ?_, ?_⟩
  · rw [dequeueBuffer, if_neg hconn]
    rw [if_neg hcap]
    dsimp only
    rw [e64,
      dequeueLoop_mismatch_alloc_fail w h fmt usage 63 p none s rest bp hpool
        hbp hmm hbudget]
  · rw [hslot]
  · rw [hslot]
  · rw [hslot]
  · rw [hslot]
  · rw [pool_detachBuffer]
    intro hmem
    rcases List.mem_filter.mp hmem with ⟨-, hdec⟩
    simp at hdec

/-- Witness for C10: on the concrete exhausted-budget state the 128 by 128
request fails with NO_MEMORY after one fetch, leaving slot 0 marked, detached
and out of the pool. -/
theorem claim10_witness :
    ∃ p', dequeueBuffer c10p 128 128 1 0 = (DequeueResult.err NO_MEMORY, p', 1) ∧
      (slotAt p' 0).mIsReallocating = true ∧
      (slotAt p' 0).mBufferProducer = none ∧
      (slotAt p' 0).mGraphicBuffer = none ∧
      (slotAt p' 0).mRequestBufferCalled = false ∧
      0 ∉ p'.pool :=
  claim10_alloc_fail_no_rollback c10p 128 128 1 0 0 [] ⟨64, 64, 1, 0, 64⟩
    (by decide) (by decide) (by decide) (by decide) (by decide) (by decide)

/-- Witness for C6: the concrete queue of the requested slot 0 indeed reports
the fixed zeros and the buffer geometry and queues the slot. -/
theorem claim6_witness :
    (⟨64, 64, 0, 0, 0⟩ : QueueBufferOutput).numPendingBuffers = 0 ∧
    (⟨64, 64, 0, 0, 0⟩ : QueueBufferOutput).nextFrameNumber = 0 ∧
    (∃ bp, (slotAt exReq (0 : Int).toNat).mBufferProducer = some bp ∧
      (⟨64, 64, 0, 0, 0⟩ : QueueBufferOutput).width = bp.width ∧
      (⟨64, 64, 0, 0, 0⟩ : QueueBufferOutput).height = bp.height) ∧
    (slotAt exReq (0 : Int).toNat).mBufferState = BufferState.dequeued ∧
    (slotAt exQueued (0 : Int).toNat).mBufferState = BufferState.queued :=
  claim6_queue_success_output exReq 0 (validInput ⟨0, 0, 64, 64⟩) false
    ⟨64, 64, 0, 0, 0⟩ exQueued (by decide)

end BufferHub
